import Mathlib

/-!
# Presentation controller (`app.js`)

A shallow embedding of the `Presentation` class of `app.js`: slide navigation,
counter and button refresh, keyboard handling, and the chart lifecycle driven by
`setTimeout` callbacks.

The browser document is modelled as the flat list of its elements in document
order; an element reference held by the controller is the element's position in
that list.  Only the parts of an element that the class reads or writes are
kept: its `id`, its class list, its `data-slide` attribute, the `disabled`
flag, its text content and the `chart` property the class attaches to a canvas.
The counter display is taken to have no element children, so that writing its
text removes no element from the document.

Pending `setTimeout` entries are kept with their delays; any pending entry may
fire next.  The style writes of the entrance animation are left out.
-/

namespace Presentation

/-! ## Display substrate -/

/-- One element of the document. -/
structure Element where
  id : Option String
  classList : List String
  dataSlide : Option String
  disabled : Bool
  textContent : String
  chart : Option Nat
  deriving DecidableEq, Repr

/-- The effect of `classList.remove(token)`. -/
def classListRemove (token : String) (e : Element) : Element :=
  { e with classList := e.classList.filter (fun c => c != token) }

/-- The effect of `classList.add(token)`: a token already present is not repeated. -/
def classListAdd (token : String) (e : Element) : Element :=
  if token ∈ e.classList then e else { e with classList := e.classList ++ [token] }

/-- Apply `f` to the entry at position `i`; out of range positions change nothing. -/
def modifyAt {α : Type} (f : α → α) : Nat → List α → List α
  | _, [] => []
  | 0, e :: es => f e :: es
  | i + 1, e :: es => e :: modifyAt f i es

/-- Position of the first element satisfying `p`, in document order. -/
def firstMatch (p : Element → Bool) : List Element → Option Nat
  | [] => none
  | e :: es => if p e then some 0 else (firstMatch p es).map (· + 1)

/-- Positions of all elements satisfying `p`, in document order. -/
def allMatches (p : Element → Bool) : List Element → List Nat
  | [] => []
  | e :: es =>
    if p e then 0 :: (allMatches p es).map (· + 1) else (allMatches p es).map (· + 1)

/-- The call `document.getElementById(id)`. -/
def getElementById (document : List Element) (id : String) : Option Nat :=
  firstMatch (fun e => decide (e.id = some id)) document

/-- The call `document.querySelectorAll('.slide')`. -/
def querySelectorAllSlide (document : List Element) : List Nat :=
  allMatches (fun e => decide ("slide" ∈ e.classList)) document

/-- The call `document.querySelector('[data-slide="${slideNumber}"]')`: the attribute
is compared with the decimal rendering of the number. -/
def querySelectorDataSlide (document : List Element) (slideNumber : Int) : Option Nat :=
  firstMatch (fun e => decide (e.dataSlide = some (toString slideNumber))) document

/-! ## Chart library and timers -/

/-- The chart kinds the class constructs. -/
inductive ChartKind where
  | doughnut
  | bar
  deriving DecidableEq, Repr

/-- One chart instance constructed so far: the position of its target canvas, its kind,
and whether `destroy()` has been called on it.  The handle of an instance is its
position in the list of instances. -/
structure ChartHandle where
  target : Nat
  kind : ChartKind
  destroyed : Bool
  deriving DecidableEq, Repr

/-- The callbacks the class hands to `setTimeout`. -/
inductive Callback where
  | initCharts
  | createCharts
  | refreshNewspaperChart
  | refreshSocialMediaChart
  deriving DecidableEq, Repr

/-- One pending `setTimeout` entry. -/
structure Timer where
  callback : Callback
  delay : Nat
  deriving DecidableEq, Repr

end Presentation

/-- The controller object together with the environment it acts on: the document, the
chart library (whether `Chart` is defined yet, whether it refuses a canvas that already
carries a live chart, and the chart instances constructed so far) and the pending
timers. -/
structure Presentation where
  currentSlide : Int
  totalSlides : Int
  slides : List Nat
  prevBtn : Option Nat
  nextBtn : Option Nat
  currentSlideElement : Option Nat
  document : List Presentation.Element
  chartDefined : Bool
  strictCanvas : Bool
  charts : List Presentation.ChartHandle
  timers : List Presentation.Timer
  deriving DecidableEq, Repr

namespace Presentation

/-- The call `setTimeout(callback, delay)`: the entry joins the pending ones. -/
def setTimeout (s : Presentation) (callback : Callback) (delay : Nat) : Presentation :=
  { s with timers := s.timers ++ [⟨callback, delay⟩] }

/-! A call that can be left by an exception returns `Except.error` with the state at the
point where the exception is raised. -/

/-- The number of chart instances constructed on the element at position `ctx` and not
destroyed since. -/
def liveOn (s : Presentation) (ctx : Nat) : Nat :=
  (s.charts.filter (fun c => decide (c.target = ctx) && !c.destroyed)).length

/-- Modelled from the spec: the chart-rendering library is not part of the sources.
`new Chart(ctx, config)` constructs a chart instance bound to the target and returns
its handle; the new instance is live.  Evaluating it while `Chart` is not defined raises
an exception.  The spec does not say what the library does with a target that already
carries a live instance.  The class configures its charts through the interface of
version 3 of Chart.js (`options.plugins.legend`, `scales.x`, `Chart.defaults.plugins`),
whose constructor raises an exception there: that is the library with `strictCanvas`;
without it the library constructs a second instance, as version 2 did. -/
def newChart (s : Presentation) (ctx : Nat) (kind : ChartKind) :
    Except Presentation (Presentation × Nat) :=
  if !s.chartDefined then Except.error s
  else if s.strictCanvas && decide (0 < liveOn s ctx) then Except.error s
  else Except.ok ({ s with charts := s.charts ++ [⟨ctx, kind, false⟩] }, s.charts.length)

/-- Modelled from the spec: the chart-rendering library is not part of the sources.
`chart.destroy()` ends the life of the instance behind the handle. -/
def destroyChart (s : Presentation) (handle : Nat) : Presentation :=
  { s with charts := modifyAt (fun c => { c with destroyed := true }) handle s.charts }

/-! ## Navigation -/

/-- The method `updateSlideCounter`. -/
def updateSlideCounter (s : Presentation) : Presentation :=
  match s.currentSlideElement with
  | some el =>
    let text := toString s.currentSlide
    { s with document := modifyAt (fun e => { e with textContent := text }) el s.document }
  | none => s

/-- The method `updateButtonStates`. -/
def updateButtonStates (s : Presentation) : Presentation :=
  let s1 :=
    match s.prevBtn with
    | some btn =>
      let disabled := decide (s.currentSlide = 1)
      { s with document := modifyAt (fun e => { e with disabled := disabled }) btn s.document }
    | none => s
  match s1.nextBtn with
  | some btn =>
    let disabled := decide (s1.currentSlide = s1.totalSlides)
    { s1 with document := modifyAt (fun e => { e with disabled := disabled }) btn s1.document }
  | none => s1

/-- The method `goToSlide`. -/
def goToSlide (s : Presentation) (slideNumber : Int) : Presentation :=
  if slideNumber < 1 ∨ slideNumber > s.totalSlides then s
  else
    let hidden :=
      s.slides.foldl (fun doc slide => modifyAt (classListRemove "active") slide doc) s.document
    let s1 := { s with document := hidden }
    match querySelectorDataSlide s1.document slideNumber with
    | none => s1
    | some targetSlide =>
      let s2 := { s1 with document := modifyAt (classListAdd "active") targetSlide s1.document }
      let s3 := { s2 with currentSlide := slideNumber }
      let s4 := updateSlideCounter s3
      let s5 := updateButtonStates s4
      if slideNumber = 3 then setTimeout s5 Callback.refreshNewspaperChart 100
      else if slideNumber = 5 then setTimeout s5 Callback.refreshSocialMediaChart 100
      else s5

/-- The method `previousSlide`. -/
def previousSlide (s : Presentation) : Presentation :=
  if s.currentSlide > 1 then goToSlide s (s.currentSlide - 1) else s

/-- The method `nextSlide`. -/
def nextSlide (s : Presentation) : Presentation :=
  if s.currentSlide < s.totalSlides then goToSlide s (s.currentSlide + 1) else s

/-- A keyboard event: the key it reports and whether its default handling was suppressed. -/
structure KeyEvent where
  key : String
  defaultPrevented : Bool
  deriving DecidableEq, Repr

/-- The call `e.preventDefault()`. -/
def KeyEvent.preventDefault (e : KeyEvent) : KeyEvent :=
  { e with defaultPrevented := true }

/-- The method `handleKeyNavigation`: the resulting controller and the event as the
handler leaves it. -/
def handleKeyNavigation (s : Presentation) (e : KeyEvent) : Presentation × KeyEvent :=
  if e.key = "ArrowLeft" then (previousSlide s, e.preventDefault)
  else if e.key = "ArrowRight" then (nextSlide s, e.preventDefault)
  else (s, e)

/-! ## Chart lifecycle -/

/-- The method `createNewspaperChart`. -/
def createNewspaperChart (s : Presentation) : Except Presentation Presentation :=
  match getElementById s.document "newspaperChart" with
  | none => Except.ok s
  | some ctx =>
    match newChart s ctx ChartKind.doughnut with
    | Except.error s1 => Except.error s1
    | Except.ok (s1, chart) =>
      Except.ok
        { s1 with document := modifyAt (fun e => { e with chart := some chart }) ctx s1.document }

/-- The method `createSocialMediaChart`. -/
def createSocialMediaChart (s : Presentation) : Except Presentation Presentation :=
  match getElementById s.document "socialMediaChart" with
  | none => Except.ok s
  | some ctx =>
    match newChart s ctx ChartKind.bar with
    | Except.error s1 => Except.error s1
    | Except.ok (s1, chart) =>
      Except.ok
        { s1 with document := modifyAt (fun e => { e with chart := some chart }) ctx s1.document }

/-- The value of `ctx && ctx.chart`: the handle stored on the element, when both exist. -/
def storedChart (s : Presentation) (ctx : Option Nat) : Option Nat :=
  match ctx with
  | none => none
  | some el =>
    match s.document[el]? with
    | none => none
    | some e => e.chart

/-- The method `refreshNewspaperChart`. -/
def refreshNewspaperChart (s : Presentation) : Except Presentation Presentation :=
  let ctx := getElementById s.document "newspaperChart"
  let s1 :=
    match storedChart s ctx with
    | some chart => destroyChart s chart
    | none => s
  createNewspaperChart s1

/-- The method `refreshSocialMediaChart`. -/
def refreshSocialMediaChart (s : Presentation) : Except Presentation Presentation :=
  let ctx := getElementById s.document "socialMediaChart"
  let s1 :=
    match storedChart s ctx with
    | some chart => destroyChart s chart
    | none => s
  createSocialMediaChart s1

/-- The method `initCharts`. -/
def initCharts (s : Presentation) : Presentation :=
  if s.chartDefined then setTimeout s Callback.createCharts 200
  else setTimeout s Callback.initCharts 100

/-- The body of each callback handed to `setTimeout`. -/
def runCallback (s : Presentation) : Callback → Except Presentation Presentation
  | Callback.initCharts => Except.ok (initCharts s)
  | Callback.createCharts =>
    match createNewspaperChart s with
    | Except.ok s1 => createSocialMediaChart s1
    | Except.error s1 => Except.error s1
  | Callback.refreshNewspaperChart => refreshNewspaperChart s
  | Callback.refreshSocialMediaChart => refreshSocialMediaChart s

/-- The state a callback leaves behind, whether it returns or is left by an exception. -/
def settle : Except Presentation Presentation → Presentation
  | Except.ok s => s
  | Except.error s => s

/-- The pending entry at position `i` fires: it leaves the pending entries and its
callback runs.  Nothing happens when there is no such entry. -/
def fireTimer (s : Presentation) (i : Nat) : Presentation :=
  match s.timers[i]? with
  | none => s
  | some t => settle (runCallback { s with timers := s.timers.eraseIdx i } t.callback)

/-- The chart library finishes loading: `Chart` is defined from then on. -/
def chartLibraryLoaded (s : Presentation) : Presentation :=
  { s with chartDefined := true }

/-! ## Construction -/

/-- The method `init`.  `setupNavigation` and the `keydown` registration only attach
listeners, whose effect is that of the methods they call. -/
def init (s : Presentation) : Presentation :=
  let s1 := updateSlideCounter s
  let s2 := updateButtonStates s1
  initCharts s2

/-- The constructor of the class, run on a document, with `Chart` defined or not, and
with a chart library of either kind. -/
def constructor (document : List Element) (chartDefined strictCanvas : Bool) : Presentation :=
  init
    { currentSlide := 1
      totalSlides := 12
      slides := querySelectorAllSlide document
      prevBtn := getElementById document "prevBtn"
      nextBtn := getElementById document "nextBtn"
      currentSlideElement := getElementById document "currentSlide"
      document := document
      chartDefined := chartDefined
      strictCanvas := strictCanvas
      charts := []
      timers := [] }

/-- The states the controller can be in: the one the constructor leaves, and every state
obtained from such a state by a navigation call, a key event, a pending callback firing,
or the chart library finishing to load. -/
inductive Reachable : Presentation → Prop where
  | start (document : List Element) (chartDefined strictCanvas : Bool) :
      Reachable (constructor document chartDefined strictCanvas)
  | goToSlide {s : Presentation} (slideNumber : Int) :
      Reachable s → Reachable (goToSlide s slideNumber)
  | previousSlide {s : Presentation} : Reachable s → Reachable (previousSlide s)
  | nextSlide {s : Presentation} : Reachable s → Reachable (nextSlide s)
  | handleKeyNavigation {s : Presentation} (e : KeyEvent) :
      Reachable s → Reachable (handleKeyNavigation s e).1
  | fireTimer {s : Presentation} (i : Nat) : Reachable s → Reachable (fireTimer s i)
  | chartLibraryLoaded {s : Presentation} : Reachable s → Reachable (chartLibraryLoaded s)

/-! ## Observations -/

/-- Whether the element at position `i` carries the class `active`. -/
def isActive (s : Presentation) (i : Nat) : Bool :=
  match s.document[i]? with
  | some e => decide ("active" ∈ e.classList)
  | none => false

/-- The `data-slide` attribute of the element at position `i`. -/
def dataSlideOf (s : Presentation) (i : Nat) : Option String :=
  match s.document[i]? with
  | some e => e.dataSlide
  | none => none

/-- The text of the counter display, when the page has one. -/
def counterText (s : Presentation) : Option String :=
  match s.currentSlideElement with
  | some el => (s.document[el]?).map (fun e => e.textContent)
  | none => none

/-- The disabled flag of the previous-control, when the page has one. -/
def prevDisabled (s : Presentation) : Option Bool :=
  match s.prevBtn with
  | some el => (s.document[el]?).map (fun e => e.disabled)
  | none => none

/-- The disabled flag of the next-control, when the page has one. -/
def nextDisabled (s : Presentation) : Option Bool :=
  match s.nextBtn with
  | some el => (s.document[el]?).map (fun e => e.disabled)
  | none => none

/-- The number of live chart instances on the element with the given id. -/
def liveCharts (s : Presentation) (id : String) : Nat :=
  match getElementById s.document id with
  | some ctx => liveOn s ctx
  | none => 0

/-- Whether the document has an element for each of the slide numbers 1 to 12. -/
def slidesPresent (document : List Element) : Bool :=
  (List.range 12).all (fun k => (querySelectorDataSlide document ((k : Int) + 1)).isSome)

/-- The controller after `k` presses of the key `key`. -/
def pressKey (key : String) : Nat → Presentation → Presentation
  | 0, s => s
  | k + 1, s => (handleKeyNavigation (pressKey key k s) ⟨key, false⟩).1

/-! ## Auxiliary descriptions used in the proofs -/

/-- A write through a reference that may be missing: `if (ref) { ... }`. -/
def writeAt (f : Element → Element) (ref : Option Nat) (document : List Element) :
    List Element :=
  match ref with
  | some el => modifyAt f el document
  | none => document

/-- The document once every slide of the collection has lost the class `active`. -/
def hideAll (s : Presentation) : List Element :=
  s.slides.foldl (fun doc slide => modifyAt (classListRemove "active") slide doc) s.document

/-- The document `base` once the counter and both controls have been refreshed for
the slide number `slideNumber`. -/
def refreshed (s : Presentation) (slideNumber : Int) (base : List Element) : List Element :=
  writeAt (fun e => { e with disabled := decide (slideNumber = s.totalSlides) }) s.nextBtn
    (writeAt (fun e => { e with disabled := decide (slideNumber = 1) }) s.prevBtn
      (writeAt (fun e => { e with textContent := toString slideNumber }) s.currentSlideElement
        base))

/-- The document a navigation to `slideNumber` with target `targetSlide` leaves. -/
def shown (s : Presentation) (slideNumber : Int) (targetSlide : Nat) : List Element :=
  refreshed s slideNumber (modifyAt (classListAdd "active") targetSlide (hideAll s))

/-- The refresh a navigation to `slideNumber` schedules. -/
def scheduled (slideNumber : Int) : List Timer :=
  if slideNumber = 3 then [⟨Callback.refreshNewspaperChart, 100⟩]
  else if slideNumber = 5 then [⟨Callback.refreshSocialMediaChart, 100⟩]
  else []

/-- The part of an element the counter and button refresh read and write. -/
def controls (e : Element) : Option String × Bool × String :=
  (e.id, e.disabled, e.textContent)

/-- The two states agree on the slide number, on the references and on what the
counter and the controls show. -/
structure SameControls (s s' : Presentation) : Prop where
  currentSlide : s'.currentSlide = s.currentSlide
  totalSlides : s'.totalSlides = s.totalSlides
  prevBtn : s'.prevBtn = s.prevBtn
  nextBtn : s'.nextBtn = s.nextBtn
  currentSlideElement : s'.currentSlideElement = s.currentSlideElement
  document : s'.document.map controls = s.document.map controls

/-- The state is one the constructor and the methods keep: the slide number is within
bounds, the references are the ones looked up by id, and every control that exists shows
the current slide. -/
structure Consistent (s : Presentation) : Prop where
  total : s.totalSlides = 12
  lower : 1 ≤ s.currentSlide
  upper : s.currentSlide ≤ 12
  prevRef : s.prevBtn = getElementById s.document "prevBtn"
  nextRef : s.nextBtn = getElementById s.document "nextBtn"
  counterRef : s.currentSlideElement = getElementById s.document "currentSlide"
  counter : s.currentSlideElement.isSome → counterText s = some (toString s.currentSlide)
  prev : s.prevBtn.isSome → prevDisabled s = some (decide (s.currentSlide = 1))
  next : s.nextBtn.isSome → nextDisabled s = some (decide (s.currentSlide = 12))

/-- No canvas carries more than one live chart, provided the library is of the kind that
refuses a canvas in use. -/
def Tidy (s : Presentation) : Prop :=
  s.strictCanvas = true → ∀ ctx, liveOn s ctx ≤ 1

/-- The step from `s` to `s'` keeps the kind of the library and keeps `Tidy`. -/
def TidyStep (s s' : Presentation) : Prop :=
  s'.strictCanvas = s.strictCanvas ∧ (Tidy s → Tidy s')

/-- Every live chart is the one stored on its canvas, provided the library is of the kind
that refuses a canvas in use. -/
def Linked (s : Presentation) : Prop :=
  s.strictCanvas = true →
    ∀ (h : Nat) (c : ChartHandle), s.charts[h]? = some c → c.destroyed = false →
      storedChart s (some c.target) = some h

/-- The step from `s` to `s'` keeps the library as it is and keeps `Linked`. -/
def LinkedStep (s s' : Presentation) : Prop :=
  s'.strictCanvas = s.strictCanvas ∧ s'.chartDefined = s.chartDefined ∧ (Linked s → Linked s')

/-! ## Letting the scheduled refreshes run -/

/-- Whether the pending entry is a chart refresh scheduled by `goToSlide`. -/
def isRefresh (t : Timer) : Bool :=
  match t.callback with
  | Callback.refreshNewspaperChart => true
  | Callback.refreshSocialMediaChart => true
  | Callback.initCharts => false
  | Callback.createCharts => false

/-- Position of the first pending chart refresh. -/
def firstRefresh : List Timer → Option Nat
  | [] => none
  | t :: ts => if isRefresh t then some 0 else (firstRefresh ts).map (· + 1)

/-- The first pending chart refresh fires, and so on, at most `fuel` times. -/
def runRefreshes : Nat → Presentation → Presentation
  | 0, s => s
  | fuel + 1, s =>
    match firstRefresh s.timers with
    | none => s
    | some i => runRefreshes fuel (fireTimer s i)

/-- Every pending chart refresh fires, in the order they were scheduled; a refresh schedules
nothing, so that one round per pending entry is enough. -/
def letRefreshesRun (s : Presentation) : Presentation :=
  runRefreshes s.timers.length s

/-! ## Sample pages -/

/-- A slide element. -/
def slideElement (n : Nat) (active : Bool) : Element :=
  { id := none
    classList := if active then ["slide", "active"] else ["slide"]
    dataSlide := some (toString n)
    disabled := false
    textContent := ""
    chart := none }

/-- An element that is known by its id only. -/
def namedElement (id : String) : Element :=
  { id := some id
    classList := []
    dataSlide := none
    disabled := false
    textContent := ""
    chart := none }

/-- Modelled from the spec: the markup of the page is not part of the sources.  The page
has what the class looks up and the spec describes: the slides 1 to 12 in order, the first
one active, the canvas of the proportional-share chart after slide 3 and the canvas of the
categorical-bar chart after slide 5, the two controls and the counter display. -/
def samplePage : List Element :=
  [ slideElement 1 true, slideElement 2 false, slideElement 3 false,
    namedElement "newspaperChart", slideElement 4 false, slideElement 5 false,
    namedElement "socialMediaChart", slideElement 6 false, slideElement 7 false,
    slideElement 8 false, slideElement 9 false, slideElement 10 false,
    slideElement 11 false, slideElement 12 false,
    namedElement "prevBtn", namedElement "currentSlide", namedElement "nextBtn" ]

/-- A page with three slides, the controls and the counter, and no canvas. -/
def pageWithoutCanvas : List Element :=
  [ slideElement 1 true, slideElement 2 false, slideElement 3 false,
    namedElement "prevBtn", namedElement "currentSlide", namedElement "nextBtn" ]

/-- A page with two slides, the canvas `newspaperChart`, the controls and the counter. -/
def pageWithoutThirdSlide : List Element :=
  [ slideElement 1 true, slideElement 2 false, namedElement "newspaperChart",
    namedElement "prevBtn", namedElement "currentSlide", namedElement "nextBtn" ]

/-- A page that stops after its second slide, to run the navigation towards a slide the
document does not have. -/
def shortPage : List Element :=
  [ slideElement 1 true, slideElement 2 false,
    namedElement "prevBtn", namedElement "currentSlide", namedElement "nextBtn" ]

end Presentation

namespace Presentation

/-! ## Lists of elements -/

theorem length_modifyAt {α : Type} (f : α → α) (i : Nat) (l : List α) :
    (modifyAt f i l).length = l.length := by
  induction l generalizing i with
  | nil => cases i <;> rfl
  | cons e es ih => cases i <;> simp [modifyAt, ih]

theorem getElem?_modifyAt {α : Type} (f : α → α) (i j : Nat) (l : List α) :
    (modifyAt f i l)[j]? = if i = j then (l[j]?).map f else l[j]? := by
  induction l generalizing i j with
  | nil => cases i <;> simp [modifyAt]
  | cons e es ih =>
    cases i with
    | zero => cases j <;> simp [modifyAt]
    | succ i => cases j <;> simp [modifyAt, ih]

theorem map_modifyAt {α β : Type} (g : α → β) (f : α → α) (h : ∀ e, g (f e) = g e)
    (i : Nat) (l : List α) : (modifyAt f i l).map g = l.map g := by
  induction l generalizing i with
  | nil => cases i <;> rfl
  | cons e es ih => cases i <;> simp [modifyAt, ih, h]

theorem map_foldl_modifyAt {α β : Type} (g : α → β) (f : α → α) (h : ∀ e, g (f e) = g e)
    (is : List Nat) (l : List α) :
    (is.foldl (fun doc i => modifyAt f i doc) l).map g = l.map g := by
  induction is generalizing l with
  | nil => rfl
  | cons i is ih => simp [List.foldl_cons, ih, map_modifyAt g f h]

theorem getElem?_foldl_modifyAt {α : Type} (f : α → α) (hf : ∀ e, f (f e) = f e)
    (is : List Nat) (l : List α) (j : Nat) :
    (is.foldl (fun doc i => modifyAt f i doc) l)[j]? =
      if j ∈ is then (l[j]?).map f else l[j]? := by
  induction is generalizing l with
  | nil => simp
  | cons i is ih =>
    simp only [List.foldl_cons, ih, getElem?_modifyAt, List.mem_cons]
    by_cases hij : i = j
    · subst hij
      by_cases hm : i ∈ is
      · cases h : l[i]? <;> simp [hm, h, hf]
      · simp [hm]
    · have hji : ¬ j = i := fun h => hij h.symm
      simp [hij, hji]

theorem firstMatch_congr (p : Element → Bool) (l l' : List Element)
    (h : l.map p = l'.map p) : firstMatch p l = firstMatch p l' := by
  induction l generalizing l' with
  | nil =>
    cases l' with
    | nil => rfl
    | cons e es => simp at h
  | cons e es ih =>
    cases l' with
    | nil => simp at h
    | cons e' es' =>
      simp only [List.map_cons, List.cons.injEq] at h
      simp [firstMatch, h.1, ih es' h.2]

theorem firstMatch_some (p : Element → Bool) (l : List Element) (i : Nat)
    (h : firstMatch p l = some i) : ∃ e, l[i]? = some e ∧ p e = true := by
  induction l generalizing i with
  | nil => simp [firstMatch] at h
  | cons e es ih =>
    by_cases hp : p e = true
    · simp [firstMatch, hp] at h
      subst h
      exact ⟨e, by simp, hp⟩
    · simp only [firstMatch, hp] at h
      cases hk : firstMatch p es with
      | none => simp [hk] at h
      | some k =>
        simp [hk] at h
        subst h
        obtain ⟨e', he', hp'⟩ := ih k hk
        exact ⟨e', by simpa using he', hp'⟩

end Presentation

namespace Presentation

/-! ## Closed forms of the navigation methods -/

theorem updateSlideCounter_eq (s : Presentation) :
    updateSlideCounter s =
      { s with
        document :=
          writeAt (fun e => { e with textContent := toString s.currentSlide })
            s.currentSlideElement s.document } := by
  rcases s with ⟨_, _, _, _, _, counter, _, _, _, _, _⟩
  cases counter <;> rfl

theorem updateButtonStates_eq (s : Presentation) :
    updateButtonStates s =
      { s with
        document :=
          writeAt (fun e => { e with disabled := decide (s.currentSlide = s.totalSlides) })
            s.nextBtn
            (writeAt (fun e => { e with disabled := decide (s.currentSlide = 1) })
              s.prevBtn s.document) } := by
  rcases s with ⟨_, _, _, prev, next, _, _, _, _, _, _⟩
  cases prev <;> cases next <;> rfl

theorem goToSlide_outside (s : Presentation) (n : Int)
    (h : n < 1 ∨ n > s.totalSlides) : goToSlide s n = s := by
  unfold goToSlide
  rw [if_pos h]

theorem map_writeAt {β : Type} (g : Element → β) (f : Element → Element)
    (h : ∀ e, g (f e) = g e) (ref : Option Nat) (l : List Element) :
    (writeAt f ref l).map g = l.map g := by
  cases ref with
  | none => rfl
  | some i => exact map_modifyAt g f h i l

theorem map_dataSlide_hideAll (s : Presentation) :
    (hideAll s).map (fun e => e.dataSlide) = s.document.map (fun e => e.dataSlide) :=
  by
    unfold hideAll
    apply map_foldl_modifyAt
    intro e
    rfl

theorem querySelectorDataSlide_congr (l l' : List Element) (n : Int)
    (h : l.map (fun e => e.dataSlide) = l'.map (fun e => e.dataSlide)) :
    querySelectorDataSlide l n = querySelectorDataSlide l' n := by
  unfold querySelectorDataSlide
  apply firstMatch_congr
  have := congrArg (List.map (fun d : Option String => decide (d = some (toString n)))) h
  simpa [List.map_map, Function.comp_def] using this

theorem goToSlide_missing (s : Presentation) (n : Int)
    (h1 : 1 ≤ n) (h2 : n ≤ s.totalSlides) (h : querySelectorDataSlide s.document n = none) :
    goToSlide s n = { s with document := hideAll s } := by
  have hq : querySelectorDataSlide (hideAll s) n = none := by
    rw [querySelectorDataSlide_congr _ _ n (map_dataSlide_hideAll s), h]
  unfold goToSlide
  rw [if_neg (by omega)]
  simp only [← hideAll.eq_1, hq]

theorem goToSlide_found (s : Presentation) (n : Int) (t : Nat)
    (h1 : 1 ≤ n) (h2 : n ≤ s.totalSlides) (h : querySelectorDataSlide s.document n = some t) :
    goToSlide s n =
      { s with
        currentSlide := n
        document := shown s n t
        timers := s.timers ++ scheduled n } := by
  have hq : querySelectorDataSlide (hideAll s) n = some t := by
    rw [querySelectorDataSlide_congr _ _ n (map_dataSlide_hideAll s), h]
  unfold goToSlide
  rw [if_neg (by omega)]
  simp only [← hideAll.eq_1, hq, updateSlideCounter_eq, updateButtonStates_eq, setTimeout,
    shown, refreshed, scheduled]
  split_ifs <;> simp

end Presentation

namespace Presentation

/-! ## Controls under the navigation methods -/

theorem getElem?_writeAt (f : Element → Element) (ref : Option Nat) (l : List Element)
    (j : Nat) : (writeAt f ref l)[j]? = if ref = some j then (l[j]?).map f else l[j]? := by
  cases ref with
  | none => simp [writeAt]
  | some i => simp [writeAt, getElem?_modifyAt]

theorem length_writeAt (f : Element → Element) (ref : Option Nat) (l : List Element) :
    (writeAt f ref l).length = l.length := by
  cases ref with
  | none => rfl
  | some i => exact length_modifyAt f i l

theorem length_hideAll (s : Presentation) : (hideAll s).length = s.document.length := by
  have := congrArg List.length (map_dataSlide_hideAll s)
  simpa using this

theorem length_refreshed (s : Presentation) (n : Int) (base : List Element) :
    (refreshed s n base).length = base.length := by
  simp [refreshed, length_writeAt]

theorem length_shown (s : Presentation) (n : Int) (t : Nat) :
    (shown s n t).length = s.document.length := by
  simp [shown, length_refreshed, length_modifyAt, length_hideAll]

theorem map_id_hideAll (s : Presentation) :
    (hideAll s).map (fun e => e.id) = s.document.map (fun e => e.id) := by
  unfold hideAll
  apply map_foldl_modifyAt
  intro e
  rfl

theorem map_controls_hideAll (s : Presentation) :
    (hideAll s).map controls = s.document.map controls := by
  unfold hideAll
  apply map_foldl_modifyAt
  intro e
  rfl

theorem classListAdd_id (token : String) (e : Element) : (classListAdd token e).id = e.id := by
  unfold classListAdd
  split <;> rfl

theorem classListAdd_dataSlide (token : String) (e : Element) :
    (classListAdd token e).dataSlide = e.dataSlide := by
  unfold classListAdd
  split <;> rfl

theorem classListAdd_controls (token : String) (e : Element) :
    controls (classListAdd token e) = controls e := by
  unfold classListAdd
  split <;> rfl

theorem map_id_refreshed (s : Presentation) (n : Int) (base : List Element) :
    (refreshed s n base).map (fun e => e.id) = base.map (fun e => e.id) := by
  unfold refreshed
  refine (map_writeAt _ _ ?_ _ _).trans ((map_writeAt _ _ ?_ _ _).trans
    (map_writeAt _ _ ?_ _ _))
  all_goals intro e; rfl

theorem map_id_shown (s : Presentation) (n : Int) (t : Nat) :
    (shown s n t).map (fun e => e.id) = s.document.map (fun e => e.id) := by
  unfold shown
  exact (map_id_refreshed s n _).trans
    ((map_modifyAt _ _ (classListAdd_id "active") _ _).trans (map_id_hideAll s))

theorem map_dataSlide_refreshed (s : Presentation) (n : Int) (base : List Element) :
    (refreshed s n base).map (fun e => e.dataSlide) = base.map (fun e => e.dataSlide) := by
  unfold refreshed
  refine (map_writeAt _ _ ?_ _ _).trans ((map_writeAt _ _ ?_ _ _).trans
    (map_writeAt _ _ ?_ _ _))
  all_goals intro e; rfl

theorem map_dataSlide_shown (s : Presentation) (n : Int) (t : Nat) :
    (shown s n t).map (fun e => e.dataSlide) = s.document.map (fun e => e.dataSlide) := by
  unfold shown
  exact (map_dataSlide_refreshed s n _).trans
    ((map_modifyAt _ _ (classListAdd_dataSlide "active") _ _).trans (map_dataSlide_hideAll s))

theorem getElementById_congr (l l' : List Element) (id : String)
    (h : l.map (fun e => e.id) = l'.map (fun e => e.id)) :
    getElementById l id = getElementById l' id := by
  unfold getElementById
  apply firstMatch_congr
  have := congrArg (List.map (fun d : Option String => decide (d = some id))) h
  simpa [List.map_map, Function.comp_def] using this

theorem map_id_of_controls (l l' : List Element) (h : l.map controls = l'.map controls) :
    l.map (fun e => e.id) = l'.map (fun e => e.id) := by
  have := congrArg (List.map (fun c : Option String × Bool × String => c.1)) h
  simpa [List.map_map, Function.comp_def, controls] using this

theorem getElementById_some (l : List Element) (id : String) (i : Nat)
    (h : getElementById l id = some i) : ∃ e, l[i]? = some e ∧ e.id = some id := by
  obtain ⟨e, he, hp⟩ := firstMatch_some _ l i h
  exact ⟨e, he, by simpa using hp⟩

end Presentation

namespace Presentation

/-! ## Consistency is kept -/

theorem counterText_controls (s : Presentation) :
    counterText s =
      s.currentSlideElement.bind (fun c => ((s.document.map controls)[c]?).map (fun x => x.2.2)) := by
  unfold counterText
  cases s.currentSlideElement <;> simp [controls, Function.comp_def]

theorem prevDisabled_controls (s : Presentation) :
    prevDisabled s =
      s.prevBtn.bind (fun c => ((s.document.map controls)[c]?).map (fun x => x.2.1)) := by
  unfold prevDisabled
  cases s.prevBtn <;> simp [controls, Function.comp_def]

theorem nextDisabled_controls (s : Presentation) :
    nextDisabled s =
      s.nextBtn.bind (fun c => ((s.document.map controls)[c]?).map (fun x => x.2.1)) := by
  unfold nextDisabled
  cases s.nextBtn <;> simp [controls, Function.comp_def]

theorem Consistent.congr {s s' : Presentation} (hs : Consistent s) (h : SameControls s s') :
    Consistent s' := by
  obtain ⟨hcur, htot, hprev, hnext, hcnt, hdoc⟩ := h
  have hid := map_id_of_controls _ _ hdoc
  refine ⟨htot.trans hs.total, hcur ▸ hs.lower, hcur ▸ hs.upper, ?_, ?_, ?_, ?_, ?_, ?_⟩
  · rw [hprev, getElementById_congr _ _ _ hid]; exact hs.prevRef
  · rw [hnext, getElementById_congr _ _ _ hid]; exact hs.nextRef
  · rw [hcnt, getElementById_congr _ _ _ hid]; exact hs.counterRef
  · intro h
    rw [counterText_controls, hcnt, hdoc, ← counterText_controls, hcur]
    exact hs.counter (hcnt ▸ h)
  · intro h
    rw [prevDisabled_controls, hprev, hdoc, ← prevDisabled_controls, hcur]
    exact hs.prev (hprev ▸ h)
  · intro h
    rw [nextDisabled_controls, hnext, hdoc, ← nextDisabled_controls, hcur]
    exact hs.next (hnext ▸ h)

theorem SameControls.same (s : Presentation) : SameControls s s :=
  ⟨rfl, rfl, rfl, rfl, rfl, rfl⟩

theorem SameControls.andThen {a b c : Presentation} (h1 : SameControls a b)
    (h2 : SameControls b c) : SameControls a c :=
  ⟨h2.1.trans h1.1, h2.2.trans h1.2, h2.3.trans h1.3, h2.4.trans h1.4, h2.5.trans h1.5,
    h2.6.trans h1.6⟩

theorem getElem?_map_congr {β : Type} (g : Element → β) (l l' : List Element)
    (h : l.map g = l'.map g) (c : Nat) : (l[c]?).map g = (l'[c]?).map g := by
  have := congrArg (fun x => x[c]?) h
  simpa using this

theorem refreshed_text (s : Presentation) (n : Int) (base : List Element) (c : Nat)
    (hc : s.currentSlideElement = some c) (hlt : c < base.length) :
    ((refreshed s n base)[c]?).map (fun e => e.textContent) = some (toString n) := by
  have h1 : (refreshed s n base).map (fun e => e.textContent) =
      (writeAt (fun e => { e with textContent := toString n }) s.currentSlideElement
        base).map (fun e => e.textContent) := by
    unfold refreshed
    refine (map_writeAt _ _ ?_ _ _).trans (map_writeAt _ _ ?_ _ _)
    all_goals intro e; rfl
  rw [getElem?_map_congr _ _ _ h1, getElem?_writeAt, if_pos hc, List.getElem?_eq_getElem hlt]
  rfl

theorem refreshed_prev (s : Presentation) (n : Int) (base : List Element) (p : Nat)
    (hp : s.prevBtn = some p) (hne : s.nextBtn ≠ some p) (hlt : p < base.length) :
    ((refreshed s n base)[p]?).map (fun e => e.disabled) = some (decide (n = 1)) := by
  have hx : p < (writeAt (fun e => { e with textContent := toString n }) s.currentSlideElement
      base).length := by
    rw [length_writeAt]; exact hlt
  unfold refreshed
  rw [getElem?_writeAt, if_neg hne, getElem?_writeAt, if_pos hp, List.getElem?_eq_getElem hx]
  rfl

theorem refreshed_next (s : Presentation) (n : Int) (base : List Element) (q : Nat)
    (hq : s.nextBtn = some q) (hlt : q < base.length) :
    ((refreshed s n base)[q]?).map (fun e => e.disabled) =
      some (decide (n = s.totalSlides)) := by
  have hx : q < (writeAt (fun e => { e with disabled := decide (n = 1) }) s.prevBtn
      (writeAt (fun e => { e with textContent := toString n }) s.currentSlideElement
        base)).length := by
    rw [length_writeAt, length_writeAt]; exact hlt
  unfold refreshed
  rw [getElem?_writeAt, if_pos hq, List.getElem?_eq_getElem hx]
  rfl

theorem length_eq_of_map_eq {β : Type} (g : Element → β) (l l' : List Element)
    (h : l.map g = l'.map g) : l.length = l'.length := by
  have := congrArg List.length h
  simpa using this

theorem consistent_refreshed (s : Presentation) (htot : s.totalSlides = 12)
    (hprev : s.prevBtn = getElementById s.document "prevBtn")
    (hnext : s.nextBtn = getElementById s.document "nextBtn")
    (hcnt : s.currentSlideElement = getElementById s.document "currentSlide")
    (n : Int) (h1 : 1 ≤ n) (h2 : n ≤ 12) (base : List Element)
    (hbase : base.map (fun e => e.id) = s.document.map (fun e => e.id)) (ts : List Timer) :
    Consistent { s with currentSlide := n, document := refreshed s n base, timers := ts } := by
  have hid := (map_id_refreshed s n base).trans hbase
  have hlen := length_eq_of_map_eq _ _ _ hbase
  refine ⟨htot, h1, h2, ?_, ?_, ?_, ?_, ?_, ?_⟩
  · show s.prevBtn = getElementById (refreshed s n base) "prevBtn"
    rw [getElementById_congr _ _ _ hid]; exact hprev
  · show s.nextBtn = getElementById (refreshed s n base) "nextBtn"
    rw [getElementById_congr _ _ _ hid]; exact hnext
  · show s.currentSlideElement = getElementById (refreshed s n base) "currentSlide"
    rw [getElementById_congr _ _ _ hid]; exact hcnt
  · intro h
    obtain ⟨c, hc⟩ := Option.isSome_iff_exists.mp h
    have hc' : s.currentSlideElement = some c := hc
    obtain ⟨e, he, -⟩ := getElementById_some _ _ _ (hcnt ▸ hc')
    have hlt : c < base.length := hlen ▸ (List.getElem?_eq_some.mp he).1
    simp only [counterText, hc']
    exact refreshed_text s n base c hc' hlt
  · intro h
    obtain ⟨p, hp⟩ := Option.isSome_iff_exists.mp h
    have hp' : s.prevBtn = some p := hp
    obtain ⟨e, he, hide⟩ := getElementById_some _ _ _ (hprev ▸ hp')
    have hlt : p < base.length := hlen ▸ (List.getElem?_eq_some.mp he).1
    have hne : s.nextBtn ≠ some p := by
      intro hq
      obtain ⟨e', he', hide'⟩ := getElementById_some _ _ _ (hnext ▸ hq)
      rw [he] at he'
      cases he'
      rw [hide] at hide'
      exact absurd hide' (by decide)
    simp only [prevDisabled, hp']
    exact refreshed_prev s n base p hp' hne hlt
  · intro h
    obtain ⟨q, hq⟩ := Option.isSome_iff_exists.mp h
    have hq' : s.nextBtn = some q := hq
    obtain ⟨e, he, -⟩ := getElementById_some _ _ _ (hnext ▸ hq')
    have hlt : q < base.length := hlen ▸ (List.getElem?_eq_some.mp he).1
    simp only [nextDisabled, hq']
    rw [refreshed_next s n base q hq' hlt, htot]

theorem Consistent.found {s : Presentation} (hs : Consistent s) (n : Int) (t : Nat)
    (h1 : 1 ≤ n) (h2 : n ≤ 12) (ts : List Timer) :
    Consistent { s with currentSlide := n, document := shown s n t, timers := ts } :=
  consistent_refreshed s hs.total hs.prevRef hs.nextRef hs.counterRef n h1 h2 _
    ((map_modifyAt _ _ (classListAdd_id "active") _ _).trans (map_id_hideAll s)) ts

theorem Consistent.goToSlide {s : Presentation} (hs : Consistent s) (n : Int) :
    Consistent (goToSlide s n) := by
  by_cases h : n < 1 ∨ n > s.totalSlides
  · rw [goToSlide_outside s n h]; exact hs
  · have h1 : 1 ≤ n := by omega
    have h2 : n ≤ s.totalSlides := by omega
    cases hq : querySelectorDataSlide s.document n with
    | none =>
      rw [goToSlide_missing s n h1 h2 hq]
      exact hs.congr ⟨rfl, rfl, rfl, rfl, rfl, map_controls_hideAll s⟩
    | some t =>
      rw [goToSlide_found s n t h1 h2 hq]
      exact hs.found n t h1 (hs.total ▸ h2) _

theorem Consistent.previousSlide {s : Presentation} (hs : Consistent s) :
    Consistent (previousSlide s) := by
  unfold Presentation.previousSlide
  split
  · exact hs.goToSlide _
  · exact hs

theorem Consistent.nextSlide {s : Presentation} (hs : Consistent s) :
    Consistent (nextSlide s) := by
  unfold Presentation.nextSlide
  split
  · exact hs.goToSlide _
  · exact hs

theorem Consistent.handleKeyNavigation {s : Presentation} (hs : Consistent s) (e : KeyEvent) :
    Consistent (handleKeyNavigation s e).1 := by
  unfold Presentation.handleKeyNavigation
  split_ifs
  · exact hs.previousSlide
  · exact hs.nextSlide
  · exact hs

/-! ## Consistency under construction and the chart callbacks -/

theorem init_eq (s : Presentation) :
    init s =
      { s with
        document := refreshed s s.currentSlide s.document
        timers := s.timers ++
          [if s.chartDefined then ⟨Callback.createCharts, 200⟩ else ⟨Callback.initCharts, 100⟩] } := by
  unfold init initCharts
  simp only [updateSlideCounter_eq, updateButtonStates_eq, setTimeout, refreshed]
  split_ifs <;> rfl

theorem constructor_consistent (document : List Element) (chartDefined strictCanvas : Bool) :
    Consistent (constructor document chartDefined strictCanvas) := by
  unfold constructor
  rw [init_eq]
  exact consistent_refreshed _ rfl rfl rfl rfl 1 (by decide) (by decide) document rfl _

theorem newChart_cases (s : Presentation) (ctx : Nat) (kind : ChartKind) :
    newChart s ctx kind = Except.error s ∨
      (newChart s ctx kind =
          Except.ok ({ s with charts := s.charts ++ [⟨ctx, kind, false⟩] }, s.charts.length) ∧
        (s.strictCanvas = true → liveOn s ctx = 0)) := by
  unfold newChart
  split_ifs with h1 h2
  · exact Or.inl rfl
  · exact Or.inl rfl
  · refine Or.inr ⟨rfl, fun hs => ?_⟩
    simp only [hs, Bool.true_and, decide_eq_true_eq] at h2
    omega

theorem sameControls_newspaper (s : Presentation) :
    SameControls s (settle (createNewspaperChart s)) := by
  unfold createNewspaperChart
  split
  · exact SameControls.same s
  · next ctx _ =>
    rcases newChart_cases s ctx _ with h | ⟨h, -⟩
    · rw [h]; exact SameControls.same s
    · rw [h]
      refine ⟨rfl, rfl, rfl, rfl, rfl, ?_⟩
      simp only [settle]
      apply map_modifyAt
      intro e
      rfl

theorem sameControls_socialMedia (s : Presentation) :
    SameControls s (settle (createSocialMediaChart s)) := by
  unfold createSocialMediaChart
  split
  · exact SameControls.same s
  · next ctx _ =>
    rcases newChart_cases s ctx _ with h | ⟨h, -⟩
    · rw [h]; exact SameControls.same s
    · rw [h]
      refine ⟨rfl, rfl, rfl, rfl, rfl, ?_⟩
      simp only [settle]
      apply map_modifyAt
      intro e
      rfl

theorem sameControls_destroy (s : Presentation) (o : Option Nat) :
    SameControls s (match o with
      | some chart => destroyChart s chart
      | none => s) := by
  cases o with
  | none => exact SameControls.same s
  | some c => exact ⟨rfl, rfl, rfl, rfl, rfl, rfl⟩

theorem sameControls_runCallback (s : Presentation) (cb : Callback) :
    SameControls s (settle (runCallback s cb)) := by
  cases cb with
  | initCharts =>
    simp only [runCallback, settle, initCharts]
    split <;> exact ⟨rfl, rfl, rfl, rfl, rfl, rfl⟩
  | createCharts =>
    simp only [runCallback]
    have h1 := sameControls_newspaper s
    cases h : createNewspaperChart s with
    | error s1 => rw [h] at h1; exact h1
    | ok s1 =>
      rw [h] at h1
      exact h1.andThen (sameControls_socialMedia s1)
  | refreshNewspaperChart =>
    simp only [runCallback, refreshNewspaperChart]
    exact (sameControls_destroy s _).andThen (sameControls_newspaper _)
  | refreshSocialMediaChart =>
    simp only [runCallback, refreshSocialMediaChart]
    exact (sameControls_destroy s _).andThen (sameControls_socialMedia _)

theorem sameControls_fireTimer (s : Presentation) (i : Nat) : SameControls s (fireTimer s i) := by
  unfold fireTimer
  split
  · exact SameControls.same s
  · next t _ =>
    have h0 : SameControls s { s with timers := s.timers.eraseIdx i } :=
      ⟨rfl, rfl, rfl, rfl, rfl, rfl⟩
    exact h0.andThen (sameControls_runCallback _ t.callback)

theorem Reachable.consistent {s : Presentation} (h : Reachable s) : Consistent s := by
  induction h with
  | start document chartDefined strictCanvas =>
    exact constructor_consistent document chartDefined strictCanvas
  | goToSlide n _ ih => exact ih.goToSlide n
  | previousSlide _ ih => exact ih.previousSlide
  | nextSlide _ ih => exact ih.nextSlide
  | handleKeyNavigation e _ ih => exact ih.handleKeyNavigation e
  | fireTimer i _ ih => exact ih.congr (sameControls_fireTimer _ i)
  | chartLibraryLoaded _ ih => exact ih.congr ⟨rfl, rfl, rfl, rfl, rfl, rfl⟩

end Presentation

namespace Presentation

/-! ## Slides under navigation -/

theorem goToSlide_cases (s : Presentation) (n : Int) :
    goToSlide s n = s ∨
    goToSlide s n = { s with document := hideAll s } ∨
    ∃ t, 1 ≤ n ∧ n ≤ s.totalSlides ∧ querySelectorDataSlide s.document n = some t ∧
      goToSlide s n =
        { s with currentSlide := n, document := shown s n t, timers := s.timers ++ scheduled n } := by
  by_cases h : n < 1 ∨ n > s.totalSlides
  · exact Or.inl (goToSlide_outside s n h)
  · have h1 : 1 ≤ n := by omega
    have h2 : n ≤ s.totalSlides := by omega
    rcases Option.eq_none_or_eq_some (querySelectorDataSlide s.document n) with hq | ⟨t, hq⟩
    · exact Or.inr (Or.inl (goToSlide_missing s n h1 h2 hq))
    · exact Or.inr (Or.inr ⟨t, h1, h2, hq, goToSlide_found s n t h1 h2 hq⟩)

theorem goToSlide_dataSlides (s : Presentation) (n : Int) :
    (goToSlide s n).document.map (fun e => e.dataSlide) =
      s.document.map (fun e => e.dataSlide) := by
  rcases goToSlide_cases s n with h | h | ⟨t, -, -, -, h⟩
  · rw [h]
  · rw [h]; exact map_dataSlide_hideAll s
  · rw [h]; exact map_dataSlide_shown s n t

theorem goToSlide_totalSlides (s : Presentation) (n : Int) :
    (goToSlide s n).totalSlides = s.totalSlides := by
  rcases goToSlide_cases s n with h | h | ⟨t, -, -, -, h⟩ <;> rw [h]

theorem slidesPresent_congr (l l' : List Element)
    (h : l.map (fun e => e.dataSlide) = l'.map (fun e => e.dataSlide)) :
    slidesPresent l = slidesPresent l' := by
  unfold slidesPresent
  simp only [querySelectorDataSlide_congr l l' _ h]

theorem slidesPresent_spec (l : List Element) (h : slidesPresent l = true) (n : Int)
    (h1 : 1 ≤ n) (h2 : n ≤ 12) : ∃ t, querySelectorDataSlide l n = some t := by
  unfold slidesPresent at h
  rw [List.all_eq_true] at h
  have hk := h (n - 1).toNat (by rw [List.mem_range]; omega)
  have hn : (((n - 1).toNat : Nat) : Int) + 1 = n := by omega
  rw [hn] at hk
  exact Option.isSome_iff_exists.mp hk

theorem nextSlide_step (s : Presentation) (htot : s.totalSlides = 12)
    (hp : slidesPresent s.document = true) (h1 : 1 ≤ s.currentSlide)
    (h2 : s.currentSlide ≤ 12) :
    (nextSlide s).currentSlide = min (s.currentSlide + 1) 12 ∧
      (nextSlide s).totalSlides = 12 ∧ slidesPresent (nextSlide s).document = true := by
  unfold nextSlide
  split
  · next hlt =>
    rw [htot] at hlt
    obtain ⟨t, ht⟩ := slidesPresent_spec _ hp (s.currentSlide + 1) (by omega) (by omega)
    refine ⟨?_, ?_, ?_⟩
    · rw [goToSlide_found s _ t (by omega) (by omega) ht]
      show s.currentSlide + 1 = min (s.currentSlide + 1) 12
      omega
    · rw [goToSlide_totalSlides, htot]
    · rw [slidesPresent_congr _ _ (goToSlide_dataSlides s _), hp]
  · next hge =>
    rw [htot] at hge
    refine ⟨?_, htot, hp⟩
    omega

theorem constructor_fields (document : List Element) (chartDefined strictCanvas : Bool) :
    (constructor document chartDefined strictCanvas).currentSlide = 1 ∧
      (constructor document chartDefined strictCanvas).totalSlides = 12 ∧
      (constructor document chartDefined strictCanvas).document.map (fun e => e.dataSlide) =
        document.map (fun e => e.dataSlide) := by
  unfold constructor
  rw [init_eq]
  exact ⟨rfl, rfl, map_dataSlide_refreshed _ _ _⟩

theorem pressRight_invariant (document : List Element) (chartDefined strictCanvas : Bool)
    (hp : slidesPresent document = true) (k : Nat) :
    (pressKey "ArrowRight" k (constructor document chartDefined strictCanvas)).currentSlide = min (1 + (k : Int)) 12 ∧
      (pressKey "ArrowRight" k (constructor document chartDefined strictCanvas)).totalSlides = 12 ∧
      slidesPresent (pressKey "ArrowRight" k (constructor document chartDefined strictCanvas)).document = true := by
  induction k with
  | zero =>
    obtain ⟨h1, h2, h3⟩ := constructor_fields document chartDefined strictCanvas
    refine ⟨?_, h2, ?_⟩
    · show (constructor document chartDefined strictCanvas).currentSlide = _
      rw [h1]; rfl
    · show slidesPresent (constructor document chartDefined strictCanvas).document = true
      rw [slidesPresent_congr _ _ h3, hp]
  | succ k ih =>
    obtain ⟨h1, h2, h3⟩ := ih
    have hstep := nextSlide_step _ h2 h3 (by rw [h1]; omega) (by rw [h1]; omega)
    have hkey : pressKey "ArrowRight" (k + 1) (constructor document chartDefined strictCanvas) =
        nextSlide (pressKey "ArrowRight" k (constructor document chartDefined strictCanvas)) := by
      show (handleKeyNavigation _ _).1 = _
      unfold handleKeyNavigation
      simp
    rw [hkey]
    refine ⟨?_, hstep.2.1, hstep.2.2⟩
    rw [hstep.1, h1]
    push_cast
    omega

/-! ## The active slide -/

theorem isActive_eq (s : Presentation) (i : Nat) :
    isActive s i = (((s.document[i]?).map (fun e => decide ("active" ∈ e.classList))).getD false) := by
  unfold isActive
  cases s.document[i]? <;> rfl

theorem classListRemove_idem (token : String) (e : Element) :
    classListRemove token (classListRemove token e) = classListRemove token e := by
  simp [classListRemove, List.filter_filter]

theorem active_classListRemove (e : Element) :
    decide ("active" ∈ (classListRemove "active" e).classList) = false := by
  simp [classListRemove]

theorem active_classListAdd (e : Element) :
    decide ("active" ∈ (classListAdd "active" e).classList) = true := by
  unfold classListAdd
  split
  · next h => simpa using h
  · simp

theorem map_active_refreshed (s : Presentation) (n : Int) (base : List Element) :
    (refreshed s n base).map (fun e => decide ("active" ∈ e.classList)) =
      base.map (fun e => decide ("active" ∈ e.classList)) := by
  unfold refreshed
  refine (map_writeAt _ _ ?_ _ _).trans ((map_writeAt _ _ ?_ _ _).trans
    (map_writeAt _ _ ?_ _ _))
  all_goals intro e; rfl

theorem shown_active (s : Presentation) (n : Int) (t i : Nat) (ht : t < s.document.length)
    (hi : i ∈ s.slides) :
    (((shown s n t)[i]?).map (fun e => decide ("active" ∈ e.classList))).getD false = true ↔
      i = t := by
  unfold shown
  rw [getElem?_map_congr _ _ _ (map_active_refreshed s n _), getElem?_modifyAt]
  by_cases h : t = i
  · subst h
    have hx : t < (hideAll s).length := by rw [length_hideAll]; exact ht
    rw [if_pos rfl, List.getElem?_eq_getElem hx]
    simp [active_classListAdd]
  · have h' : ¬ i = t := fun e => h e.symm
    rw [if_neg h]
    unfold hideAll
    rw [getElem?_foldl_modifyAt _ (classListRemove_idem "active"), if_pos hi]
    cases s.document[i]? with
    | none => simp [h']
    | some e =>
      simp only [Option.map_some', Option.getD_some, active_classListRemove]
      simp [h']

end Presentation

namespace Presentation

/-! ## Chart instances under a library that refuses a canvas in use -/

theorem liveOn_destroyChart (s : Presentation) (handle ctx : Nat) :
    liveOn (destroyChart s handle) ctx ≤ liveOn s ctx := by
  unfold liveOn destroyChart
  show (List.filter _ (modifyAt _ handle s.charts)).length ≤ _
  generalize s.charts = l
  induction l generalizing handle with
  | nil => cases handle <;> simp [modifyAt]
  | cons c cs ih =>
    cases handle with
    | zero =>
      simp only [modifyAt, List.filter_cons]
      split_ifs <;> simp_all
    | succ k =>
      simp only [modifyAt, List.filter_cons]
      have := ih k
      split_ifs <;> simp_all

theorem liveOn_append (s : Presentation) (ctx0 ctx : Nat) (kind : ChartKind) :
    liveOn { s with charts := s.charts ++ [⟨ctx0, kind, false⟩] } ctx =
      liveOn s ctx + if ctx0 = ctx then 1 else 0 := by
  unfold liveOn
  simp only [List.filter_append, List.length_append, List.filter_cons, List.filter_nil]
  split_ifs <;> simp_all

theorem TidyStep.stay (s : Presentation) : TidyStep s s :=
  ⟨rfl, id⟩

theorem TidyStep.followedBy {a b c : Presentation} (h1 : TidyStep a b) (h2 : TidyStep b c) :
    TidyStep a c :=
  ⟨h2.1.trans h1.1, fun h => h2.2 (h1.2 h)⟩

theorem TidyStep.of_eq {s s' : Presentation} (h1 : s'.strictCanvas = s.strictCanvas)
    (h2 : s'.charts = s.charts) : TidyStep s s' := by
  refine ⟨h1, fun h hs ctx => ?_⟩
  have := h (h1 ▸ hs) ctx
  unfold liveOn at this ⊢
  rw [h2]
  exact this

theorem tidyStep_destroy (s : Presentation) (o : Option Nat) :
    TidyStep s (match o with
      | some chart => destroyChart s chart
      | none => s) := by
  cases o with
  | none => exact TidyStep.stay s
  | some c =>
    exact ⟨rfl, fun h hs ctx => Nat.le_trans (liveOn_destroyChart s c ctx) (h hs ctx)⟩

theorem tidyStep_added (s : Presentation) (ctx : Nat) (kind : ChartKind)
    (h0 : s.strictCanvas = true → liveOn s ctx = 0) (document : List Element) :
    TidyStep s { s with charts := s.charts ++ [⟨ctx, kind, false⟩], document := document } := by
  refine ⟨rfl, fun h hs c => ?_⟩
  have h1 : liveOn { s with charts := s.charts ++ [⟨ctx, kind, false⟩], document := document } c =
      liveOn { s with charts := s.charts ++ [⟨ctx, kind, false⟩] } c := rfl
  rw [h1, liveOn_append]
  have := h hs c
  have := h0 hs
  split_ifs with hcc
  · subst hcc; omega
  · omega

theorem tidyStep_newspaper (s : Presentation) : TidyStep s (settle (createNewspaperChart s)) := by
  unfold createNewspaperChart
  split
  · exact TidyStep.stay s
  · next ctx _ =>
    rcases newChart_cases s ctx ChartKind.doughnut with h | ⟨h, h0⟩
    · rw [h]; exact TidyStep.stay s
    · rw [h]; exact tidyStep_added s ctx _ h0 _

theorem tidyStep_socialMedia (s : Presentation) :
    TidyStep s (settle (createSocialMediaChart s)) := by
  unfold createSocialMediaChart
  split
  · exact TidyStep.stay s
  · next ctx _ =>
    rcases newChart_cases s ctx ChartKind.bar with h | ⟨h, h0⟩
    · rw [h]; exact TidyStep.stay s
    · rw [h]; exact tidyStep_added s ctx _ h0 _

theorem tidyStep_runCallback (s : Presentation) (cb : Callback) :
    TidyStep s (settle (runCallback s cb)) := by
  cases cb with
  | initCharts =>
    simp only [runCallback, settle, initCharts]
    split <;> exact TidyStep.of_eq rfl rfl
  | createCharts =>
    simp only [runCallback]
    have h1 := tidyStep_newspaper s
    cases h : createNewspaperChart s with
    | error s1 => rw [h] at h1; exact h1
    | ok s1 =>
      rw [h] at h1
      exact h1.followedBy (tidyStep_socialMedia s1)
  | refreshNewspaperChart =>
    simp only [runCallback, refreshNewspaperChart]
    exact (tidyStep_destroy s _).followedBy (tidyStep_newspaper _)
  | refreshSocialMediaChart =>
    simp only [runCallback, refreshSocialMediaChart]
    exact (tidyStep_destroy s _).followedBy (tidyStep_socialMedia _)

theorem tidyStep_fireTimer (s : Presentation) (i : Nat) : TidyStep s (fireTimer s i) := by
  unfold fireTimer
  split
  · exact TidyStep.stay s
  · next t _ =>
    have h0 : TidyStep s { s with timers := s.timers.eraseIdx i } := TidyStep.of_eq rfl rfl
    exact h0.followedBy (tidyStep_runCallback _ t.callback)

theorem tidyStep_goToSlide (s : Presentation) (n : Int) : TidyStep s (goToSlide s n) := by
  rcases goToSlide_cases s n with h | h | ⟨t, -, -, -, h⟩ <;> rw [h]
  · exact TidyStep.stay s
  · exact TidyStep.of_eq rfl rfl
  · exact TidyStep.of_eq rfl rfl

theorem tidyStep_previousSlide (s : Presentation) : TidyStep s (previousSlide s) := by
  unfold previousSlide
  split
  · exact tidyStep_goToSlide s _
  · exact TidyStep.stay s

theorem tidyStep_nextSlide (s : Presentation) : TidyStep s (nextSlide s) := by
  unfold nextSlide
  split
  · exact tidyStep_goToSlide s _
  · exact TidyStep.stay s

theorem tidyStep_handleKeyNavigation (s : Presentation) (e : KeyEvent) :
    TidyStep s (handleKeyNavigation s e).1 := by
  unfold handleKeyNavigation
  split_ifs
  · exact tidyStep_previousSlide s
  · exact tidyStep_nextSlide s
  · exact TidyStep.stay s

theorem constructor_charts (document : List Element) (chartDefined strictCanvas : Bool) :
    (constructor document chartDefined strictCanvas).charts = [] := by
  unfold constructor
  rw [init_eq]

theorem Reachable.tidy {s : Presentation} (h : Reachable s) : Tidy s := by
  induction h with
  | start document chartDefined strictCanvas =>
    intro _ ctx
    unfold liveOn
    rw [constructor_charts]
    simp
  | goToSlide n _ ih => exact (tidyStep_goToSlide _ n).2 ih
  | previousSlide _ ih => exact (tidyStep_previousSlide _).2 ih
  | nextSlide _ ih => exact (tidyStep_nextSlide _).2 ih
  | handleKeyNavigation e _ ih => exact (tidyStep_handleKeyNavigation _ e).2 ih
  | fireTimer i _ ih => exact (tidyStep_fireTimer _ i).2 ih
  | @chartLibraryLoaded s _ ih =>
    have h : TidyStep s (Presentation.chartLibraryLoaded s) := TidyStep.of_eq rfl rfl
    exact h.2 ih

end Presentation

namespace Presentation

/-! ## The chart stored on a canvas -/

theorem storedChart_eq (s : Presentation) (el : Nat) :
    storedChart s (some el) = ((s.document.map (fun e => e.chart))[el]?).bind (fun x => x) := by
  unfold storedChart
  cases h : s.document[el]? <;> simp [h]

theorem storedChart_congr (s s' : Presentation)
    (h : s'.document.map (fun e => e.chart) = s.document.map (fun e => e.chart))
    (ctx : Option Nat) : storedChart s' ctx = storedChart s ctx := by
  cases ctx with
  | none => rfl
  | some el => rw [storedChart_eq, storedChart_eq, h]

theorem classListAdd_chart (token : String) (e : Element) :
    (classListAdd token e).chart = e.chart := by
  unfold classListAdd
  split <;> rfl

theorem map_chart_hideAll (s : Presentation) :
    (hideAll s).map (fun e => e.chart) = s.document.map (fun e => e.chart) := by
  unfold hideAll
  apply map_foldl_modifyAt
  intro e
  rfl

theorem map_chart_shown (s : Presentation) (n : Int) (t : Nat) :
    (shown s n t).map (fun e => e.chart) = s.document.map (fun e => e.chart) := by
  unfold shown refreshed
  refine (map_writeAt _ _ ?_ _ _).trans ((map_writeAt _ _ ?_ _ _).trans
    ((map_writeAt _ _ ?_ _ _).trans
      ((map_modifyAt _ _ (classListAdd_chart "active") _ _).trans (map_chart_hideAll s))))
  all_goals intro e; rfl

theorem LinkedStep.unchanged (s : Presentation) : LinkedStep s s :=
  ⟨rfl, rfl, id⟩

theorem LinkedStep.andNext {a b c : Presentation} (h1 : LinkedStep a b) (h2 : LinkedStep b c) :
    LinkedStep a c :=
  ⟨h2.1.trans h1.1, h2.2.1.trans h1.2.1, fun h => h2.2.2 (h1.2.2 h)⟩

theorem LinkedStep.of_same {s s' : Presentation} (h1 : s'.strictCanvas = s.strictCanvas)
    (h2 : s'.chartDefined = s.chartDefined) (h3 : s'.charts = s.charts)
    (h4 : s'.document.map (fun e => e.chart) = s.document.map (fun e => e.chart)) :
    LinkedStep s s' := by
  refine ⟨h1, h2, fun hl hs h c hc hd => ?_⟩
  rw [storedChart_congr s s' h4]
  exact hl (h1 ▸ hs) h c (h3 ▸ hc) hd

theorem linkedStep_destroy (s : Presentation) (o : Option Nat) :
    LinkedStep s (match o with
      | some chart => destroyChart s chart
      | none => s) := by
  cases o with
  | none => exact LinkedStep.unchanged s
  | some h0 =>
    refine ⟨rfl, rfl, fun hl hs h c hc hd => ?_⟩
    have hc' : (modifyAt (fun c => { c with destroyed := true }) h0 s.charts)[h]? = some c := hc
    rw [getElem?_modifyAt] at hc'
    by_cases hh : h0 = h
    · rw [if_pos hh] at hc'
      cases hx : s.charts[h]? with
      | none => rw [hx] at hc'; simp at hc'
      | some c0 =>
        rw [hx] at hc'
        simp only [Option.map_some', Option.some.injEq] at hc'
        rw [← hc'] at hd
        simp at hd
    · rw [if_neg hh] at hc'
      exact hl hs h c hc' hd

theorem liveOn_eq_zero (s : Presentation) (ctx : Nat) :
    liveOn s ctx = 0 ↔ ∀ c ∈ s.charts, c.target = ctx → c.destroyed = true := by
  unfold liveOn
  rw [List.length_eq_zero, List.filter_eq_nil_iff]
  constructor
  · intro h c hc ht
    have := h c hc
    simpa [ht] using this
  · intro h c hc
    by_cases ht : c.target = ctx
    · simp [ht, h c hc ht]
    · simp [ht]

theorem linkedStep_added (s : Presentation) (ctx : Nat) (kind : ChartKind)
    (h0 : s.strictCanvas = true → liveOn s ctx = 0) (hlt : ctx < s.document.length) :
    LinkedStep s
      { s with
        charts := s.charts ++ [⟨ctx, kind, false⟩]
        document := modifyAt (fun e => { e with chart := some s.charts.length }) ctx s.document } := by
  refine ⟨rfl, rfl, fun hl hs h c hc hd => ?_⟩
  have hc' : (s.charts ++ [⟨ctx, kind, false⟩])[h]? = some c := hc
  show storedChart
    { s with
      charts := s.charts ++ [⟨ctx, kind, false⟩]
      document := modifyAt (fun e => { e with chart := some s.charts.length }) ctx s.document }
    (some c.target) = some h
  unfold storedChart
  simp only [getElem?_modifyAt]
  by_cases hh : h < s.charts.length
  · rw [List.getElem?_append_left hh] at hc'
    have hne : ¬ ctx = c.target := by
      intro he
      have hz := (liveOn_eq_zero s ctx).mp (h0 hs) c (List.getElem?_mem hc') he.symm
      rw [hz] at hd
      exact Bool.noConfusion hd
    rw [if_neg hne]
    have := hl hs h c hc' hd
    unfold storedChart at this
    exact this
  · have hge : s.charts.length ≤ h := Nat.le_of_not_lt hh
    rw [List.getElem?_append_right hge] at hc'
    have hh0 : h - s.charts.length = 0 := by
      by_contra hne
      have : ([({ target := ctx, kind := kind, destroyed := false } : ChartHandle)])[h - s.charts.length]? = none := by
        apply List.getElem?_eq_none
        simp
        omega
      rw [this] at hc'
      exact Option.noConfusion hc'
    rw [hh0] at hc'
    simp only [List.getElem?_cons_zero, Option.some.injEq] at hc'
    subst hc'
    have hheq : h = s.charts.length := by omega
    simp only [if_true, List.getElem?_eq_getElem hlt, Option.map_some', hheq]

theorem linkedStep_newspaper (s : Presentation) :
    LinkedStep s (settle (createNewspaperChart s)) := by
  unfold createNewspaperChart
  split
  · exact LinkedStep.unchanged s
  · next ctx hctx =>
    obtain ⟨e, he, -⟩ := getElementById_some _ _ _ hctx
    have hlt : ctx < s.document.length := (List.getElem?_eq_some.mp he).1
    rcases newChart_cases s ctx ChartKind.doughnut with h | ⟨h, h0⟩
    · rw [h]; exact LinkedStep.unchanged s
    · rw [h]; exact linkedStep_added s ctx _ h0 hlt

theorem linkedStep_socialMedia (s : Presentation) :
    LinkedStep s (settle (createSocialMediaChart s)) := by
  unfold createSocialMediaChart
  split
  · exact LinkedStep.unchanged s
  · next ctx hctx =>
    obtain ⟨e, he, -⟩ := getElementById_some _ _ _ hctx
    have hlt : ctx < s.document.length := (List.getElem?_eq_some.mp he).1
    rcases newChart_cases s ctx ChartKind.bar with h | ⟨h, h0⟩
    · rw [h]; exact LinkedStep.unchanged s
    · rw [h]; exact linkedStep_added s ctx _ h0 hlt

theorem linkedStep_runCallback (s : Presentation) (cb : Callback) :
    LinkedStep s (settle (runCallback s cb)) := by
  cases cb with
  | initCharts =>
    simp only [runCallback, settle, initCharts]
    split <;> exact LinkedStep.of_same rfl rfl rfl rfl
  | createCharts =>
    simp only [runCallback]
    have h1 := linkedStep_newspaper s
    cases h : createNewspaperChart s with
    | error s1 => rw [h] at h1; exact h1
    | ok s1 =>
      rw [h] at h1
      exact h1.andNext (linkedStep_socialMedia s1)
  | refreshNewspaperChart =>
    simp only [runCallback, refreshNewspaperChart]
    exact (linkedStep_destroy s _).andNext (linkedStep_newspaper _)
  | refreshSocialMediaChart =>
    simp only [runCallback, refreshSocialMediaChart]
    exact (linkedStep_destroy s _).andNext (linkedStep_socialMedia _)

theorem linkedStep_fireTimer (s : Presentation) (i : Nat) : LinkedStep s (fireTimer s i) := by
  unfold fireTimer
  split
  · exact LinkedStep.unchanged s
  · next t _ =>
    have h0 : LinkedStep s { s with timers := s.timers.eraseIdx i } :=
      LinkedStep.of_same rfl rfl rfl rfl
    exact h0.andNext (linkedStep_runCallback _ t.callback)

theorem linkedStep_goToSlide (s : Presentation) (n : Int) : LinkedStep s (goToSlide s n) := by
  rcases goToSlide_cases s n with h | h | ⟨t, -, -, -, h⟩ <;> rw [h]
  · exact LinkedStep.unchanged s
  · exact LinkedStep.of_same rfl rfl rfl (map_chart_hideAll s)
  · exact LinkedStep.of_same rfl rfl rfl (map_chart_shown s n t)

theorem linkedStep_previousSlide (s : Presentation) : LinkedStep s (previousSlide s) := by
  unfold previousSlide
  split
  · exact linkedStep_goToSlide s _
  · exact LinkedStep.unchanged s

theorem linkedStep_nextSlide (s : Presentation) : LinkedStep s (nextSlide s) := by
  unfold nextSlide
  split
  · exact linkedStep_goToSlide s _
  · exact LinkedStep.unchanged s

theorem linkedStep_handleKeyNavigation (s : Presentation) (e : KeyEvent) :
    LinkedStep s (handleKeyNavigation s e).1 := by
  unfold handleKeyNavigation
  split_ifs
  · exact linkedStep_previousSlide s
  · exact linkedStep_nextSlide s
  · exact LinkedStep.unchanged s

theorem Reachable.linked {s : Presentation} (h : Reachable s) : Linked s := by
  induction h with
  | start document chartDefined strictCanvas =>
    intro _ h c hc _
    rw [constructor_charts] at hc
    simp at hc
  | goToSlide n _ ih => exact (linkedStep_goToSlide _ n).2.2 ih
  | previousSlide _ ih => exact (linkedStep_previousSlide _).2.2 ih
  | nextSlide _ ih => exact (linkedStep_nextSlide _).2.2 ih
  | handleKeyNavigation e _ ih => exact (linkedStep_handleKeyNavigation _ e).2.2 ih
  | fireTimer i _ ih => exact (linkedStep_fireTimer _ i).2.2 ih
  | @chartLibraryLoaded s _ ih =>
    intro hs h c hc hd
    exact ih hs h c hc hd

/-! ## A refresh leaves exactly one chart -/

theorem liveOn_after_destroy (s : Presentation) (hs : s.strictCanvas = true) (hl : Linked s)
    (ctx : Nat) :
    liveOn (match storedChart s (some ctx) with
      | some chart => destroyChart s chart
      | none => s) ctx = 0 := by
  rw [liveOn_eq_zero]
  intro c hc ht
  cases hst : storedChart s (some ctx) with
  | none =>
    rw [hst] at hc
    simp only at hc
    obtain ⟨h, hh⟩ := List.mem_iff_getElem?.mp hc
    cases hd : c.destroyed with
    | true => rfl
    | false =>
      have := hl hs h c hh hd
      rw [ht, hst] at this
      exact Option.noConfusion this
  | some h0 =>
    rw [hst] at hc
    simp only at hc
    obtain ⟨h, hh⟩ := List.mem_iff_getElem?.mp hc
    have hh' : (modifyAt (fun c => { c with destroyed := true }) h0 s.charts)[h]? = some c := hh
    rw [getElem?_modifyAt] at hh'
    by_cases he : h0 = h
    · rw [if_pos he] at hh'
      cases hx : s.charts[h]? with
      | none => rw [hx] at hh'; simp at hh'
      | some c0 =>
        rw [hx] at hh'
        simp only [Option.map_some', Option.some.injEq] at hh'
        rw [← hh']
    · rw [if_neg he] at hh'
      cases hd : c.destroyed with
      | true => rfl
      | false =>
        have := hl hs h c hh' hd
        rw [ht, hst] at this
        exact absurd (Option.some.inj this) he

theorem refreshNewspaperChart_one (s : Presentation) (hs : s.strictCanvas = true)
    (hd : s.chartDefined = true) (hl : Linked s) (ctx : Nat)
    (hctx : getElementById s.document "newspaperChart" = some ctx) :
    liveCharts (settle (refreshNewspaperChart s)) "newspaperChart" = 1 := by
  have hz := liveOn_after_destroy s hs hl ctx
  unfold refreshNewspaperChart
  simp only [hctx]
  generalize hs1 : (match storedChart s (some ctx) with
      | some chart => destroyChart s chart
      | none => s) = s1 at hz
  have hdoc : s1.document = s.document := by
    rw [← hs1]; split <;> rfl
  have hstrict : s1.strictCanvas = true := by
    rw [← hs1]; split <;> exact hs
  have hdef : s1.chartDefined = true := by
    rw [← hs1]; split <;> exact hd
  have hnew : newChart s1 ctx ChartKind.doughnut =
      Except.ok ({ s1 with charts := s1.charts ++ [⟨ctx, ChartKind.doughnut, false⟩] },
        s1.charts.length) := by
    unfold newChart
    simp [hdef, hstrict, hz]
  unfold createNewspaperChart
  simp only [hdoc, hctx, hnew, settle]
  unfold liveCharts
  have hid : getElementById
      (modifyAt (fun e => { e with chart := some s1.charts.length }) ctx s.document)
      "newspaperChart" = some ctx := by
    have hm : (modifyAt (fun e => { e with chart := some s1.charts.length }) ctx
        s.document).map (fun e => e.id) = s.document.map (fun e => e.id) := by
      apply map_modifyAt
      intro e
      rfl
    rw [getElementById_congr _ s.document _ hm]
    exact hctx
  simp only [hdoc, hid]
  have := liveOn_append s1 ctx ctx ChartKind.doughnut
  rw [hz] at this
  simpa [liveOn] using this

end Presentation

namespace Presentation

/-! ## Running the pending refreshes -/

theorem firstRefresh_some (l : List Timer) (i : Nat) (h : firstRefresh l = some i) :
    ∃ t, l[i]? = some t ∧ isRefresh t = true := by
  induction l generalizing i with
  | nil => simp [firstRefresh] at h
  | cons t ts ih =>
    by_cases hp : isRefresh t = true
    · simp [firstRefresh, hp] at h
      subst h
      exact ⟨t, by simp, hp⟩
    · simp only [firstRefresh, hp] at h
      cases hk : firstRefresh ts with
      | none => simp [hk] at h
      | some k =>
        simp [hk] at h
        subst h
        obtain ⟨t', ht', hp'⟩ := ih k hk
        exact ⟨t', by simpa using ht', hp'⟩

theorem firstRefresh_append (l : List Timer) (r : Timer) (hr : isRefresh r = true) :
    firstRefresh (l ++ [r]) =
      some (match firstRefresh l with
        | some i => i
        | none => l.length) := by
  induction l with
  | nil => simp [firstRefresh, hr]
  | cons t ts ih =>
    by_cases hp : isRefresh t = true
    · simp [firstRefresh, hp]
    · have hf : isRefresh t = false := by simpa using hp
      have h1 : firstRefresh (t :: ts ++ [r]) = (firstRefresh (ts ++ [r])).map (· + 1) := by
        show (if isRefresh t then some 0 else (firstRefresh (ts ++ [r])).map (· + 1)) = _
        rw [hf]; rfl
      have h2 : firstRefresh (t :: ts) = (firstRefresh ts).map (· + 1) := by
        show (if isRefresh t then some 0 else (firstRefresh ts).map (· + 1)) = _
        rw [hf]; rfl
      rw [h1, h2, ih]
      cases firstRefresh ts <;> simp

theorem timers_settle_newspaper (s : Presentation) :
    (settle (createNewspaperChart s)).timers = s.timers := by
  unfold createNewspaperChart
  split
  · rfl
  · next ctx _ =>
    rcases newChart_cases s ctx ChartKind.doughnut with h | ⟨h, -⟩ <;> rw [h] <;> rfl

theorem timers_settle_socialMedia (s : Presentation) :
    (settle (createSocialMediaChart s)).timers = s.timers := by
  unfold createSocialMediaChart
  split
  · rfl
  · next ctx _ =>
    rcases newChart_cases s ctx ChartKind.bar with h | ⟨h, -⟩ <;> rw [h] <;> rfl

theorem timers_destroy (s : Presentation) (o : Option Nat) :
    (match o with
      | some chart => destroyChart s chart
      | none => s).timers = s.timers := by
  cases o <;> rfl

theorem timers_fireTimer_refresh (s : Presentation) (i : Nat) (t : Timer)
    (ht : s.timers[i]? = some t) (hr : isRefresh t = true) :
    (fireTimer s i).timers = s.timers.eraseIdx i := by
  unfold fireTimer
  rw [ht]
  simp only
  rcases t with ⟨cb, d⟩
  cases cb with
  | initCharts => simp [isRefresh] at hr
  | createCharts => simp [isRefresh] at hr
  | refreshNewspaperChart =>
    simp only [runCallback, refreshNewspaperChart]
    rw [timers_settle_newspaper, timers_destroy]
  | refreshSocialMediaChart =>
    simp only [runCallback, refreshSocialMediaChart]
    rw [timers_settle_socialMedia, timers_destroy]

theorem getElementById_fireTimer (s : Presentation) (i : Nat) (id : String) :
    getElementById (fireTimer s i).document id = getElementById s.document id :=
  getElementById_congr _ _ _ (map_id_of_controls _ _ (sameControls_fireTimer s i).document)

theorem fireTimer_newspaper_one (s : Presentation) (hr : Reachable s)
    (hs : s.strictCanvas = true) (hd : s.chartDefined = true) (ctx : Nat)
    (hctx : getElementById s.document "newspaperChart" = some ctx) (i d : Nat)
    (ht : s.timers[i]? = some ⟨Callback.refreshNewspaperChart, d⟩) :
    liveCharts (fireTimer s i) "newspaperChart" = 1 := by
  unfold fireTimer
  rw [ht]
  simp only [runCallback]
  have hl : Linked { s with timers := s.timers.eraseIdx i } := by
    have hstep : LinkedStep s { s with timers := s.timers.eraseIdx i } :=
      LinkedStep.of_same rfl rfl rfl rfl
    exact hstep.2.2 hr.linked
  exact refreshNewspaperChart_one _ hs hd hl ctx hctx

theorem runRefreshes_idle (n : Nat) (s : Presentation) (h : firstRefresh s.timers = none) :
    runRefreshes n s = s := by
  cases n with
  | zero => rfl
  | succ n => simp [runRefreshes, h]

theorem runRefreshes_one (n : Nat) :
    ∀ (s : Presentation) (pending : List Timer) (d ctx : Nat), Reachable s →
      s.strictCanvas = true → s.chartDefined = true →
      getElementById s.document "newspaperChart" = some ctx →
      s.timers = pending ++ [⟨Callback.refreshNewspaperChart, d⟩] → pending.length < n →
      liveCharts (runRefreshes n s) "newspaperChart" = 1 := by
  induction n with
  | zero => intro s pending d ctx _ _ _ _ _ hn; exact absurd hn (Nat.not_lt_zero _)
  | succ n ih =>
    intro s pending d ctx hr hs hd hctx ht hn
    have hfirst := firstRefresh_append pending ⟨Callback.refreshNewspaperChart, d⟩ rfl
    rw [← ht] at hfirst
    unfold runRefreshes
    rw [hfirst]
    simp only
    cases hp : firstRefresh pending with
    | some i =>
      simp only
      obtain ⟨t, hti, hrt⟩ := firstRefresh_some pending i hp
      have hlt : i < pending.length := (List.getElem?_eq_some.mp hti).1
      have hti' : s.timers[i]? = some t := by
        rw [ht, List.getElem?_append_left hlt]; exact hti
      have htimers := timers_fireTimer_refresh s i t hti' hrt
      rw [ht, List.eraseIdx_append_of_lt_length hlt] at htimers
      refine ih (fireTimer s i) (pending.eraseIdx i) d ctx (Reachable.fireTimer i hr) ?_ ?_ ?_
        htimers ?_
      · rw [(linkedStep_fireTimer s i).1]; exact hs
      · rw [(linkedStep_fireTimer s i).2.1]; exact hd
      · rw [getElementById_fireTimer]; exact hctx
      · rw [List.length_eraseIdx_of_lt hlt]; omega
    | none =>
      simp only
      have hti : s.timers[pending.length]? = some ⟨Callback.refreshNewspaperChart, d⟩ := by
        rw [ht]; exact List.getElem?_concat_length _ _
      have htimers := timers_fireTimer_refresh s pending.length _ hti rfl
      rw [ht, List.eraseIdx_append_of_length_le (Nat.le_refl _)] at htimers
      simp only [Nat.sub_self, List.eraseIdx_cons_zero, List.append_nil] at htimers
      rw [runRefreshes_idle n _ (by rw [htimers]; exact hp)]
      exact fireTimer_newspaper_one s hr hs hd ctx hctx pending.length d hti

theorem nextSlide_below (s : Presentation) (h : s.currentSlide < s.totalSlides) :
    nextSlide s = goToSlide s (s.currentSlide + 1) := by
  unfold nextSlide
  rw [if_pos h]

theorem goToSlide_ids (s : Presentation) (n : Int) :
    (goToSlide s n).document.map (fun e => e.id) = s.document.map (fun e => e.id) := by
  rcases goToSlide_cases s n with h | h | ⟨t, -, -, -, h⟩
  · rw [h]
  · rw [h]; exact map_id_hideAll s
  · rw [h]; exact map_id_shown s n t

theorem revisit_one (s : Presentation) (hr : Reachable s) (hs : s.strictCanvas = true)
    (hd : s.chartDefined = true) (ctx t : Nat)
    (hctx : getElementById s.document "newspaperChart" = some ctx)
    (ht : querySelectorDataSlide s.document 3 = some t) :
    liveCharts (letRefreshesRun (goToSlide s 3)) "newspaperChart" = 1 := by
  have htot := hr.consistent.total
  have hfound := goToSlide_found s 3 t (by decide) (by rw [htot]; decide) ht
  have htimers : (goToSlide s 3).timers =
      s.timers ++ [⟨Callback.refreshNewspaperChart, 100⟩] := by
    rw [hfound]; rfl
  unfold letRefreshesRun
  refine runRefreshes_one _ (goToSlide s 3) s.timers 100 ctx (Reachable.goToSlide 3 hr) ?_ ?_ ?_
    htimers ?_
  · rw [(linkedStep_goToSlide s 3).1]; exact hs
  · rw [(linkedStep_goToSlide s 3).2.1]; exact hd
  · rw [getElementById_congr _ _ _ (goToSlide_ids s 3)]; exact hctx
  · rw [htimers]; simp

end Presentation

namespace Presentation

/-! ## The properties of the specification -/

/-- C1: in every state, with `totalSlides` the 12 the constructor sets, `goToSlide(n)` for
`n < 1` or `n > 12` returns the state it was given: the slide number, every element of the
document (so the active flags, the counter text and the disabled flags) and the pending
timers are all unchanged. -/
theorem goToSlide_out_of_range_is_noop (s : Presentation) (n : Int)
    (htot : s.totalSlides = 12) (h : n < 1 ∨ n > 12) : goToSlide s n = s :=
  goToSlide_outside s n (htot ▸ h)

theorem goToSlide_out_of_range_is_noop_witness :
    (constructor samplePage true false).totalSlides = 12 ∧ ((13 : Int) < 1 ∨ (13 : Int) > 12) ∧
      goToSlide (constructor samplePage true false) 13 = constructor samplePage true false :=
  ⟨by decide, by decide,
    goToSlide_out_of_range_is_noop (constructor samplePage true false) 13 (by decide) (by decide)⟩

/-- C2, as stated, fails: on a page without a third slide, `goToSlide(3)` strips the class
`active` from every slide, finds no target and stops, so the slide number is not 3 and no
slide of the collection is active. -/
theorem goToSlide_without_target_counterexample :
    ¬ ((goToSlide (constructor shortPage true false) 3).currentSlide = 3 ∧
        ∃ t ∈ (goToSlide (constructor shortPage true false) 3).slides,
          ∀ i ∈ (goToSlide (constructor shortPage true false) 3).slides,
            (isActive (goToSlide (constructor shortPage true false) 3) i = true ↔ i = t)) := by
  decide

/-- C2, amended: in every state, for `1 ≤ n ≤ 12`, when the first element of the document
whose `data-slide` is `n` exists and belongs to the slide collection, then after
`goToSlide(n)` the slide number is `n`, that element is still in the collection and still
carries `data-slide = n`, and a slide of the collection is active exactly when it is that
element. -/
theorem goToSlide_activates_exactly_the_target (s : Presentation) (n : Int) (t : Nat)
    (htot : s.totalSlides = 12) (h1 : 1 ≤ n) (h2 : n ≤ 12)
    (ht : querySelectorDataSlide s.document n = some t) (hmem : t ∈ s.slides) :
    (goToSlide s n).currentSlide = n ∧
      t ∈ (goToSlide s n).slides ∧
      dataSlideOf (goToSlide s n) t = some (toString n) ∧
      ∀ i ∈ (goToSlide s n).slides, (isActive (goToSlide s n) i = true ↔ i = t) := by
  obtain ⟨e, he, hd⟩ := firstMatch_some _ _ _ ht
  have hlt : t < s.document.length := (List.getElem?_eq_some.mp he).1
  rw [goToSlide_found s n t h1 (htot ▸ h2) ht]
  refine ⟨rfl, hmem, ?_, ?_⟩
  · have hm := getElem?_map_congr _ _ _ (map_dataSlide_shown s n t) t
    rw [he] at hm
    unfold dataSlideOf
    show (match (shown s n t)[t]? with
      | some e => e.dataSlide
      | none => none) = some (toString n)
    cases hx : (shown s n t)[t]? with
    | none => rw [hx] at hm; simp at hm
    | some e' =>
      rw [hx] at hm
      simp only [Option.map_some', Option.some.injEq] at hm
      simpa [hm] using hd
  · intro i hi
    rw [isActive_eq]
    exact shown_active s n t i hlt hi

theorem goToSlide_activates_exactly_the_target_witness :
    (querySelectorDataSlide (constructor samplePage true false).document 7 = some 8 ∧
        8 ∈ (constructor samplePage true false).slides) ∧
      (goToSlide (constructor samplePage true false) 7).currentSlide = 7 ∧
      8 ∈ (goToSlide (constructor samplePage true false) 7).slides ∧
      dataSlideOf (goToSlide (constructor samplePage true false) 7) 8 = some (toString (7 : Int)) ∧
      ∀ i ∈ (goToSlide (constructor samplePage true false) 7).slides,
        (isActive (goToSlide (constructor samplePage true false) 7) i = true ↔ i = 8) :=
  ⟨by decide,
    goToSlide_activates_exactly_the_target (constructor samplePage true false) 7 8
      (by decide) (by decide) (by decide) (by decide) (by decide)⟩

/-- C3: the constructor leaves the slide number 1 and `totalSlides` 12, and in every state
reached from there by calls of `goToSlide(n)` for any integer `n`, of `previousSlide()` and
of `nextSlide()`, by key events, and also by pending callbacks firing, the slide number is
between 1 and 12 and `totalSlides` is still 12. -/
theorem currentSlide_stays_within_bounds :
    (∀ (document : List Element) (chartDefined strictCanvas : Bool),
        (constructor document chartDefined strictCanvas).currentSlide = 1 ∧
          (constructor document chartDefined strictCanvas).totalSlides = 12) ∧
      ∀ s : Presentation, Reachable s →
        1 ≤ s.currentSlide ∧ s.currentSlide ≤ 12 ∧ s.totalSlides = 12 :=
  ⟨fun document chartDefined strictCanvas =>
      ⟨(constructor_fields document chartDefined strictCanvas).1, (constructor_fields document chartDefined strictCanvas).2.1⟩,
    fun _ h => ⟨h.consistent.lower, h.consistent.upper, h.consistent.total⟩⟩

theorem currentSlide_stays_within_bounds_witness :
    1 ≤ (goToSlide (nextSlide (constructor samplePage false false)) 40).currentSlide ∧
      (goToSlide (nextSlide (constructor samplePage false false)) 40).currentSlide ≤ 12 ∧
      (goToSlide (nextSlide (constructor samplePage false false)) 40).totalSlides = 12 :=
  currentSlide_stays_within_bounds.2 _
    (Reachable.goToSlide 40 (Reachable.nextSlide (Reachable.start samplePage false false)))

/-- C4: with `totalSlides` the 12 the constructor sets, `previousSlide()` in a state on
slide 1 and `nextSlide()` in a state on slide 12 return the state they were given, whole. -/
theorem navigation_at_the_boundary_is_noop (s : Presentation) (htot : s.totalSlides = 12) :
    (s.currentSlide = 1 → previousSlide s = s) ∧ (s.currentSlide = 12 → nextSlide s = s) := by
  constructor
  · intro h
    unfold previousSlide
    rw [if_neg (by omega)]
  · intro h
    unfold nextSlide
    rw [if_neg (by omega)]

theorem navigation_at_the_boundary_is_noop_witness :
    previousSlide (constructor samplePage true false) = constructor samplePage true false ∧
      nextSlide (goToSlide (constructor samplePage true false) 12) =
        goToSlide (constructor samplePage true false) 12 :=
  ⟨(navigation_at_the_boundary_is_noop (constructor samplePage true false) (by decide)).1 (by decide),
    (navigation_at_the_boundary_is_noop (goToSlide (constructor samplePage true false) 12)
      (by decide)).2 (by decide)⟩


/-- C5: in the state the constructor leaves and in every state reached from it, so after
every `goToSlide(n)`, `previousSlide()` and `nextSlide()`, the previous-control of the page
has its disabled flag set exactly when the slide number is 1, and the next-control exactly
when it is 12. -/
theorem controls_disabled_exactly_at_the_ends :
    (∀ (document : List Element) (chartDefined strictCanvas : Bool),
        ((constructor document chartDefined strictCanvas).prevBtn.isSome →
          prevDisabled (constructor document chartDefined strictCanvas) =
            some (decide ((constructor document chartDefined strictCanvas).currentSlide = 1))) ∧
        ((constructor document chartDefined strictCanvas).nextBtn.isSome →
          nextDisabled (constructor document chartDefined strictCanvas) =
            some (decide ((constructor document chartDefined strictCanvas).currentSlide = 12)))) ∧
      ∀ s : Presentation, Reachable s →
        ∀ s' : Presentation,
          (s' = previousSlide s ∨ s' = nextSlide s ∨ ∃ n : Int, s' = goToSlide s n) →
          (s'.prevBtn.isSome → prevDisabled s' = some (decide (s'.currentSlide = 1))) ∧
          (s'.nextBtn.isSome → nextDisabled s' = some (decide (s'.currentSlide = 12))) := by
  refine ⟨fun document chartDefined strictCanvas => ?_, fun s hs s' h => ?_⟩
  · have hc := (Reachable.start document chartDefined strictCanvas).consistent
    exact ⟨hc.prev, hc.next⟩
  · have hr : Reachable s' := by
      rcases h with h | h | ⟨n, h⟩
      · exact h ▸ hs.previousSlide
      · exact h ▸ hs.nextSlide
      · exact h ▸ hs.goToSlide n
    exact ⟨hr.consistent.prev, hr.consistent.next⟩

theorem controls_disabled_exactly_at_the_ends_witness :
    prevDisabled (goToSlide (nextSlide (constructor samplePage true false)) 12) = some false ∧
      nextDisabled (goToSlide (nextSlide (constructor samplePage true false)) 12) = some true :=
  ⟨(controls_disabled_exactly_at_the_ends.2 (nextSlide (constructor samplePage true false))
      (Reachable.nextSlide (Reachable.start samplePage true false)) _
      (Or.inr (Or.inr ⟨12, rfl⟩))).1 (by decide),
    (controls_disabled_exactly_at_the_ends.2 (nextSlide (constructor samplePage true false))
      (Reachable.nextSlide (Reachable.start samplePage true false)) _
      (Or.inr (Or.inr ⟨12, rfl⟩))).2 (by decide)⟩

/-- C6, as stated, fails: on the sample page with the chart library not loaded, navigating
to slide 3, away to slide 1 and back to slide 3 schedules two refreshes; each of them is
left by the exception that `new Chart` raises while `Chart` is not defined, so that once
they have run the canvas `newspaperChart` carries no chart, not one. -/
theorem revisit_without_chart_library_counterexample :
    liveCharts
        (letRefreshesRun
          (goToSlide (goToSlide (goToSlide (constructor samplePage false true) 3) 1) 3))
        "newspaperChart" = 0 ∧
      ¬ (liveCharts
        (letRefreshesRun
          (goToSlide (goToSlide (goToSlide (constructor samplePage false true) 3) 1) 3))
        "newspaperChart" = 1) := by
  decide

/-- C6, amended: with the chart library the class is written for, which refuses a canvas in
use, every state reached from the constructor by navigation calls, key events and pending
callbacks firing has at most one live chart on `newspaperChart` and at most one on
`socialMediaChart`; and when the library is loaded and the page has the canvas
`newspaperChart` and an element for slide 3, navigating to slide 3, then to any slide `m`,
then back to slide 3 and letting the scheduled refreshes run leaves exactly one live chart
on `newspaperChart`. -/
theorem one_live_chart_per_canvas :
    (∀ s : Presentation, Reachable s → s.strictCanvas = true →
        liveCharts s "newspaperChart" ≤ 1 ∧ liveCharts s "socialMediaChart" ≤ 1) ∧
      ∀ s : Presentation, Reachable s → s.strictCanvas = true → s.chartDefined = true →
        (getElementById s.document "newspaperChart").isSome →
        (querySelectorDataSlide s.document 3).isSome →
        ∀ m : Int,
          liveCharts (letRefreshesRun (goToSlide (goToSlide (goToSlide s 3) m) 3))
            "newspaperChart" = 1 := by
  refine ⟨fun s hr hs => ?_, fun s hr hs hd hc h3 m => ?_⟩
  · have hle : ∀ id : String, liveCharts s id ≤ 1 := by
      intro id
      unfold liveCharts
      split
      · next ctx _ => exact hr.tidy hs ctx
      · exact Nat.zero_le 1
    exact ⟨hle _, hle _⟩
  · obtain ⟨ctx, hctx⟩ := Option.isSome_iff_exists.mp hc
    obtain ⟨t, ht⟩ := Option.isSome_iff_exists.mp h3
    have hr2 : Reachable (goToSlide (goToSlide s 3) m) :=
      Reachable.goToSlide m (Reachable.goToSlide 3 hr)
    refine revisit_one (goToSlide (goToSlide s 3) m) hr2 ?_ ?_ ctx t ?_ ?_
    · rw [(linkedStep_goToSlide _ m).1, (linkedStep_goToSlide s 3).1]; exact hs
    · rw [(linkedStep_goToSlide _ m).2.1, (linkedStep_goToSlide s 3).2.1]; exact hd
    · rw [getElementById_congr _ _ _ (goToSlide_ids _ m),
        getElementById_congr _ _ _ (goToSlide_ids s 3)]
      exact hctx
    · rw [querySelectorDataSlide_congr _ _ 3 (goToSlide_dataSlides _ m),
        querySelectorDataSlide_congr _ _ 3 (goToSlide_dataSlides s 3)]
      exact ht

theorem one_live_chart_per_canvas_witness :
    (liveCharts (fireTimer (fireTimer (nextSlide (nextSlide (constructor samplePage true true))) 1) 0)
        "newspaperChart" ≤ 1 ∧
      liveCharts (fireTimer (fireTimer (nextSlide (nextSlide (constructor samplePage true true))) 1) 0)
        "socialMediaChart" ≤ 1) ∧
      liveCharts
        (letRefreshesRun
          (goToSlide (goToSlide (goToSlide (constructor samplePage true true) 3) 1) 3))
        "newspaperChart" = 1 :=
  ⟨one_live_chart_per_canvas.1 _
      (Reachable.fireTimer 0 (Reachable.fireTimer 1
        (Reachable.nextSlide (Reachable.nextSlide (Reachable.start samplePage true true)))))
      (by decide),
    one_live_chart_per_canvas.2 (constructor samplePage true true)
      (Reachable.start samplePage true true) (by decide) (by decide) (by decide) (by decide) 1⟩

/-- C7: on a page that has an element for each of the slide numbers 1 to 12, `k` presses of
the right arrow key from the state the constructor leaves give the slide number
`min (1 + k) 12`. -/
theorem right_arrow_presses_clamp_at_the_last_slide (document : List Element)
    (chartDefined strictCanvas : Bool) (k : Nat) (hp : slidesPresent document = true) :
    (pressKey "ArrowRight" k (constructor document chartDefined strictCanvas)).currentSlide =
      min (1 + (k : Int)) 12 :=
  (pressRight_invariant document chartDefined strictCanvas hp k).1

theorem right_arrow_presses_clamp_at_the_last_slide_witness :
    slidesPresent samplePage = true ∧
      (pressKey "ArrowRight" 11 (constructor samplePage true false)).currentSlide = 12 ∧
      (pressKey "ArrowRight" 12 (constructor samplePage true false)).currentSlide = 12 :=
  ⟨by decide,
    right_arrow_presses_clamp_at_the_last_slide samplePage true false 11 (by decide),
    right_arrow_presses_clamp_at_the_last_slide samplePage true false 12 (by decide)⟩

/-- C8, as stated, fails: on a page that stops after its second slide, two `nextSlide()`
calls after construction give the slide number 2 and a counter reading "2": the second
call finds no element for slide 3 and leaves the slide number and the counter alone. -/
theorem two_calls_of_nextSlide_on_a_short_page_counterexample :
    ((nextSlide (nextSlide (constructor shortPage true false))).currentSlide = 2 ∧
        counterText (nextSlide (nextSlide (constructor shortPage true false))) = some "2") ∧
      ¬ ((nextSlide (nextSlide (constructor shortPage true false))).currentSlide = 3 ∧
        counterText (nextSlide (nextSlide (constructor shortPage true false))) = some "3") := by
  decide

/-- C8, amended: the counter display of the page reads the slide number: it reads 1 in the
state the constructor leaves, it reads the slide number in every state reached from it, so
after every `goToSlide(n)`, `previousSlide()` and `nextSlide()`, and on a page that has an
element for slide 2 and one for slide 3 two `nextSlide()` calls after construction give the
slide number 3 and a counter reading "3". -/
theorem counter_reads_the_current_slide :
    (∀ (document : List Element) (chartDefined strictCanvas : Bool),
        (constructor document chartDefined strictCanvas).currentSlideElement.isSome →
          counterText (constructor document chartDefined strictCanvas) = some "1") ∧
      (∀ s : Presentation, Reachable s → s.currentSlideElement.isSome →
          counterText s = some (toString s.currentSlide)) ∧
      ∀ (document : List Element) (chartDefined strictCanvas : Bool),
        (querySelectorDataSlide document 2).isSome →
        (querySelectorDataSlide document 3).isSome →
        (nextSlide (nextSlide (constructor document chartDefined strictCanvas))).currentSlide = 3 ∧
        ((nextSlide (nextSlide
            (constructor document chartDefined strictCanvas))).currentSlideElement.isSome →
          counterText (nextSlide (nextSlide (constructor document chartDefined strictCanvas))) =
            some "3") := by
  refine ⟨fun document chartDefined strictCanvas h => ?_, fun s hs h => hs.consistent.counter h,
    fun document chartDefined strictCanvas h2 h3 => ?_⟩
  · have hc := (Reachable.start document chartDefined strictCanvas).consistent.counter h
    rw [(constructor_fields document chartDefined strictCanvas).1] at hc
    exact hc
  · obtain ⟨hcur, htot, hdata⟩ := constructor_fields document chartDefined strictCanvas
    obtain ⟨t2, ht2⟩ := Option.isSome_iff_exists.mp h2
    obtain ⟨t3, ht3⟩ := Option.isSome_iff_exists.mp h3
    have hq2 : querySelectorDataSlide (constructor document chartDefined strictCanvas).document 2 =
        some t2 := by
      rw [querySelectorDataSlide_congr _ _ 2 hdata]; exact ht2
    have hfirst : nextSlide (constructor document chartDefined strictCanvas) =
        goToSlide (constructor document chartDefined strictCanvas) 2 := by
      unfold nextSlide
      rw [hcur, htot, if_pos (by decide)]
      rfl
    have hcur1 : (nextSlide (constructor document chartDefined strictCanvas)).currentSlide = 2 := by
      rw [hfirst, goToSlide_found _ 2 t2 (by decide) (by rw [htot]; decide) hq2]
    have htot1 : (nextSlide (constructor document chartDefined strictCanvas)).totalSlides = 12 := by
      rw [hfirst, goToSlide_totalSlides, htot]
    have hq3 : querySelectorDataSlide
        (nextSlide (constructor document chartDefined strictCanvas)).document 3 = some t3 := by
      rw [hfirst, querySelectorDataSlide_congr _ _ 3 (goToSlide_dataSlides _ 2),
        querySelectorDataSlide_congr _ _ 3 hdata]
      exact ht3
    have h3' : (nextSlide (nextSlide
        (constructor document chartDefined strictCanvas))).currentSlide = 3 := by
      have hsecond : nextSlide (nextSlide (constructor document chartDefined strictCanvas)) =
          goToSlide (nextSlide (constructor document chartDefined strictCanvas)) 3 := by
        rw [nextSlide_below _ (by rw [hcur1, htot1]; decide), hcur1]
        rfl
      rw [hsecond, goToSlide_found _ 3 t3 (by decide) (by rw [htot1]; decide) hq3]
    refine ⟨h3', fun h => ?_⟩
    have hc := (Reachable.nextSlide (Reachable.nextSlide
      (Reachable.start document chartDefined strictCanvas))).consistent.counter h
    rw [h3'] at hc
    exact hc

theorem counter_reads_the_current_slide_witness :
    (nextSlide (nextSlide (constructor samplePage true false))).currentSlide = 3 ∧
      counterText (nextSlide (nextSlide (constructor samplePage true false))) = some "3" :=
  ⟨(counter_reads_the_current_slide.2.2 samplePage true false (by decide) (by decide)).1,
    (counter_reads_the_current_slide.2.2 samplePage true false (by decide) (by decide)).2
      (by decide)⟩

/-- C9: with `totalSlides` the 12 the constructor sets, `previousSlide()` returns the state
`goToSlide(currentSlide - 1)` returns when the slide number is above 1, and `nextSlide()`
the state `goToSlide(currentSlide + 1)` returns when it is below 12; on slide 1
`previousSlide()` returns the state it was given, as `goToSlide(0)` does, and on slide 12
`nextSlide()` returns the state it was given, as `goToSlide(13)` does. -/
theorem previous_and_next_are_guarded_goToSlide (s : Presentation)
    (htot : s.totalSlides = 12) :
    (s.currentSlide > 1 → previousSlide s = goToSlide s (s.currentSlide - 1)) ∧
      (s.currentSlide < 12 → nextSlide s = goToSlide s (s.currentSlide + 1)) ∧
      (s.currentSlide = 1 → previousSlide s = s ∧ goToSlide s 0 = s) ∧
      (s.currentSlide = 12 → nextSlide s = s ∧ goToSlide s 13 = s) := by
  refine ⟨fun h => ?_, fun h => ?_, fun h => ⟨?_, ?_⟩, fun h => ⟨?_, ?_⟩⟩
  · unfold previousSlide
    rw [if_pos h]
  · unfold nextSlide
    rw [if_pos (htot ▸ h)]
  · unfold previousSlide
    rw [if_neg (by omega)]
  · exact goToSlide_outside s 0 (Or.inl (by decide))
  · unfold nextSlide
    rw [if_neg (by omega)]
  · exact goToSlide_outside s 13 (Or.inr (by omega))

theorem previous_and_next_are_guarded_goToSlide_witness :
    (previousSlide (goToSlide (constructor samplePage true false) 4) =
        goToSlide (goToSlide (constructor samplePage true false) 4) (4 - 1) ∧
      nextSlide (goToSlide (constructor samplePage true false) 4) =
        goToSlide (goToSlide (constructor samplePage true false) 4) (4 + 1)) ∧
      (previousSlide (constructor samplePage true false) = constructor samplePage true false ∧
        goToSlide (constructor samplePage true false) 0 = constructor samplePage true false) ∧
      (nextSlide (goToSlide (constructor samplePage true false) 12) =
          goToSlide (constructor samplePage true false) 12 ∧
        goToSlide (goToSlide (constructor samplePage true false) 12) 13 =
          goToSlide (constructor samplePage true false) 12) :=
  ⟨⟨(previous_and_next_are_guarded_goToSlide (goToSlide (constructor samplePage true false) 4)
        (by decide)).1 (by decide),
      (previous_and_next_are_guarded_goToSlide (goToSlide (constructor samplePage true false) 4)
        (by decide)).2.1 (by decide)⟩,
    (previous_and_next_are_guarded_goToSlide (constructor samplePage true false)
      (by decide)).2.2.1 (by decide),
    (previous_and_next_are_guarded_goToSlide (goToSlide (constructor samplePage true false) 12)
      (by decide)).2.2.2 (by decide)⟩

/-- C10: in every state, a key event whose key is `ArrowLeft` gives the state
`previousSlide()` gives and one whose key is `ArrowRight` the state `nextSlide()` gives, both
with the default handling of the event suppressed; an event with any other key leaves the
state and the event as they were. -/
theorem key_events_only_drive_previous_and_next (s : Presentation) (e : KeyEvent) :
    (e.key = "ArrowLeft" →
        handleKeyNavigation s e = (previousSlide s, { e with defaultPrevented := true })) ∧
      (e.key = "ArrowRight" →
        handleKeyNavigation s e = (nextSlide s, { e with defaultPrevented := true })) ∧
      (e.key ≠ "ArrowLeft" → e.key ≠ "ArrowRight" → handleKeyNavigation s e = (s, e)) := by
  refine ⟨fun h => ?_, fun h => ?_, fun h1 h2 => ?_⟩
  · unfold handleKeyNavigation
    rw [if_pos h]
    rfl
  · have hne : ¬ e.key = "ArrowLeft" := by rw [h]; decide
    unfold handleKeyNavigation
    rw [if_neg hne, if_pos h]
    rfl
  · unfold handleKeyNavigation
    rw [if_neg h1, if_neg h2]

theorem key_events_only_drive_previous_and_next_witness :
    handleKeyNavigation (goToSlide (constructor samplePage true false) 4) ⟨"ArrowLeft", false⟩ =
        (previousSlide (goToSlide (constructor samplePage true false) 4), ⟨"ArrowLeft", true⟩) ∧
      handleKeyNavigation (goToSlide (constructor samplePage true false) 4) ⟨"ArrowRight", false⟩ =
        (nextSlide (goToSlide (constructor samplePage true false) 4), ⟨"ArrowRight", true⟩) ∧
      handleKeyNavigation (goToSlide (constructor samplePage true false) 4) ⟨"Enter", false⟩ =
        (goToSlide (constructor samplePage true false) 4, ⟨"Enter", false⟩) :=
  ⟨(key_events_only_drive_previous_and_next _ ⟨"ArrowLeft", false⟩).1 rfl,
    (key_events_only_drive_previous_and_next _ ⟨"ArrowRight", false⟩).2.1 rfl,
    (key_events_only_drive_previous_and_next _ ⟨"Enter", false⟩).2.2 (by decide) (by decide)⟩

/-! ## The startup callback after a refresh, and pages that lack a part -/

/-- With the chart library loaded, the revisit of slide 3 leaves no chart on `newspaperChart`
when the page has no such canvas, and none either when the page has no third slide, where
no refresh is scheduled. -/
theorem revisit_needs_the_canvas_and_the_slide :
    liveCharts
        (letRefreshesRun
          (goToSlide (goToSlide (goToSlide (constructor pageWithoutCanvas true true) 3) 1) 3))
        "newspaperChart" = 0 ∧
      liveCharts
        (letRefreshesRun
          (goToSlide (goToSlide (goToSlide (constructor pageWithoutThirdSlide true true) 3) 1) 3))
        "newspaperChart" = 0 := by
  decide


/-- With a chart library that refuses a canvas in use, a refresh that fires before the
startup callback makes that callback end by an exception in `createNewspaperChart`: the
first chart stays the only one on its canvas and `createSocialMediaChart` is never
reached, whereas a startup callback that fires first constructs both charts. -/
theorem refusing_library_aborts_startup_creation :
    liveCharts
        (fireTimer (fireTimer (nextSlide (nextSlide (constructor samplePage true true))) 1) 0)
        "newspaperChart" = 1 ∧
      liveCharts
        (fireTimer (fireTimer (nextSlide (nextSlide (constructor samplePage true true))) 1) 0)
        "socialMediaChart" = 0 ∧
      liveCharts (fireTimer (constructor samplePage true true) 0) "socialMediaChart" = 1 := by
  decide

end Presentation
